import Mathlib

/-!
Shallow embedding of the Growthlabs dispatcher repository
(`src/brightdata/Growthlabs/dispatcher_api.py` and the
`src/brightdata/.history/Growthlabs/` dispatcher variants).

Conventions of the embedding:
* Python strings are Lean `String`; substring containment (`w in t`) and
  `t.count(w)` are modelled on `List Char`.
* Machine integers do not overflow in any modelled path, so counts are `Nat`
  and comparisons that subtract are stated over `Int`.
* Database rows are records; a database is a record of row lists together
  with the next auto-increment ids.
* The outbound HTTP call of the worker is an oracle `net : Nat → HttpResult`
  giving the outcome of the k-th attempt; sleeps and calls are reported in an
  event trace.
* Read-only endpoints (`/inbox`) and the results table written by the
  webhook are not modelled: no claim mentions them.
-/

namespace GrowthLabs

set_option maxRecDepth 2000

/-! ## Python string primitives -/

/-- Python `needle in hay` on the character lists of the two strings:
containment of `needle` as a contiguous substring. -/
def listInStr (needle : List Char) : List Char → Bool
  | [] => needle.isEmpty
  | c :: rest => needle.isPrefixOf (c :: rest) || listInStr needle rest

/-- Python `needle in hay` for strings. -/
def pyInStr (needle hay : String) : Bool :=
  listInStr needle.toList hay.toList

/-- Python `hay.count(needle)`: number of non-overlapping occurrences,
scanning from the left. -/
def listCount (needle : List Char) : List Char → Nat
  | [] => 0
  | c :: rest =>
    if needle.isPrefixOf (c :: rest) then
      listCount needle (rest.drop (needle.length - 1)) + 1
    else
      listCount needle rest
termination_by hay => hay.length
decreasing_by
  · simp only [List.length_drop, List.length_cons]
    omega
  · simp [List.length_cons]

/-- Python `hay.count(needle)` for strings (for empty `needle` Python
returns `len(hay) + 1`). -/
def pyCount (needle hay : String) : Nat :=
  if needle.toList.isEmpty then hay.toList.length + 1
  else listCount needle.toList hay.toList

/-- Python `s.isdigit()` restricted to ASCII content (every modelled header
is ASCII): non-empty and all characters are digits. -/
def pyIsDigit (s : String) : Bool :=
  !s.isEmpty && s.toList.all Char.isDigit

/-- Python `int(s)` for a digit string (only ever applied under
`pyIsDigit`). -/
def pyInt (s : String) : Nat :=
  s.toList.foldl (fun acc c => acc * 10 + (c.toNat - 48)) 0

/-! ## Naive sentiment (`dispatcher_api.py`, lines 173–187, and the MCP
variant `dispatcher_mcp_20250726150006.py`, lines 235–244) -/

/-- `POS` word set (identical in both files). -/
def POS : List String :=
  ["good", "great", "love", "helpful", "useful", "amazing", "excellent",
   "positive", "recommend", "win", "best"]

/-- `NEG` word set (identical in both files). -/
def NEG : List String :=
  ["bad", "hate", "awful", "worst", "bug", "spam", "scam", "negative",
   "problem", "issue", "slow", "confusing"]

/-- `simple_sentiment` of `dispatcher_api.py`: membership counts
(`1 for word in POS if word in text_lower`) with a strict comparison. -/
def simple_sentiment (text : String) : String :=
  if text.isEmpty then "neutral"
  else
    let text_lower := text.toLower
    let pos_count := (POS.filter (fun w => pyInStr w text_lower)).length
    let neg_count := (NEG.filter (fun w => pyInStr w text_lower)).length
    if pos_count > neg_count then "positive"
    else if neg_count > pos_count then "negative"
    else "neutral"

/-- `simple_sentiment` of `dispatcher_mcp_20250726150006.py`: occurrence
counts (`t.count(w)`) with a margin of 2. -/
def simple_sentiment_mcp (text : String) : String :=
  let t := text.toLower
  let p := (POS.map (fun w => pyCount w t)).sum
  let n := (NEG.map (fun w => pyCount w t)).sum
  if (p : Int) - n ≥ 2 then "positive"
  else if (n : Int) - p ≥ 2 then "negative"
  else "neutral"

/-! ## Dispatcher data model (`dispatcher_20250726135709.py`, lines 35–79) -/

/-- Python truthiness of an optional string (`None` and `""` are falsy). -/
def optStrTruthy : Option String → Bool
  | none => false
  | some s => !s.isEmpty

/-- Environment-derived configuration (lines 17–26). -/
structure Config where
  DISPATCHER_SECRET : String
  BRIGHTDATA_TOKEN : Option String
  BRIGHTDATA_DATASET_SEARCH : Option String
  WORKER_CONCURRENCY : Nat
deriving Repr, DecidableEq

/-- One element of `build_search_inputs()`: `{q, gl, num, meta:{source,q}}`. -/
structure SearchInput where
  q : String
  gl : String
  num : Nat
  meta_source : String
  meta_q : String
deriving Repr, DecidableEq

/-- `build_search_inputs()` (lines 98–130). -/
def build_search_inputs : List SearchInput :=
  (["Devpost review",
    "Devpost experience",
    "Devpost pros and cons",
    "is Devpost legit",
    "Devpost scam",
    "Devpost complaints",
    "Devpost prizes winners feedback",
    "Devpost hackathon rules disqualified",
    "site:devpost.com discussions",
    "site:devpost.com \"winners\" OR \"prize\" OR \"prizes\"",
    "site:devpost.com \"rules\" OR \"disqualified\" OR \"complaint\"",
    "site:reddit.com Devpost",
    "\"Devpost\" site:reddit.com/r/hackathons"]).map
    (fun s => { q := s, gl := "us", num := 20, meta_source := "web", meta_q := s })

/-- The `inputs` field of a Job payload: a JSON list of search items, or
some non-list JSON value (for which `isinstance(inputs, list)` is false). -/
inductive InputsVal where
  | list (items : List SearchInput)
  | nonList
deriving Repr, DecidableEq

/-- A Job `input` JSON object restricted to the keys this module reads or
writes (`none` = key absent). -/
structure RunInput where
  dataset_id : Option String
  inputs : Option InputsVal
  format : Option String
  include_errors : Option Bool
  notify : Option Bool
  endpoint : Option String
  reason : Option String
deriving Repr, DecidableEq

/-- The input object with no keys, `{}`. -/
def RunInput.empty : RunInput :=
  ⟨none, none, none, none, none, none, none⟩

/-- Python truthiness of the input JSON object: a dict is truthy iff it has
at least one key. -/
def RunInput.truthy (p : RunInput) : Bool :=
  p.dataset_id.isSome || p.inputs.isSome || p.format.isSome ||
  p.include_errors.isSome || p.notify.isSome || p.endpoint.isSome ||
  p.reason.isSome

/-- Python truthiness of the `input` column (`NULL` and `{}` are falsy). -/
def inputTruthy : Option RunInput → Bool
  | none => false
  | some p => p.truthy

/-- `output` column content written on success:
`{"snapshot_id": data.get("snapshot_id"), "raw": data}` (line 287); the raw
JSON body is kept opaque as a string. -/
structure RunOutput where
  snapshot_id : Option String
  raw : String
deriving Repr, DecidableEq

/-- `ToolRun` row (lines 46–56). -/
structure ToolRun where
  id : Nat
  trigger_id : Option Nat
  tool : String
  status : String
  input : Option RunInput
  output : Option RunOutput
  error : Option String
  created_at : Nat
deriving Repr, DecidableEq

/-- `Trigger` row (lines 35–44); the float columns only ever hold
integer values in this module. -/
structure Trigger where
  id : Nat
  kind : String
  metric : String
  prev_value : Nat
  curr_value : Nat
  pct_drop : Nat
  created_at : Nat
deriving Repr, DecidableEq

/-- `TargetUser` row (lines 58–65). -/
structure TargetUser where
  id : Nat
  distinct_id : String
  window : String
  active : Nat
  created_at : Nat
  updated_at : Nat
deriving Repr, DecidableEq

/-- The three mutated tables plus auto-increment counters. -/
structure DB where
  triggers : List Trigger
  tool_runs : List ToolRun
  target_users : List TargetUser
  next_trigger_id : Nat
  next_run_id : Nat
  next_target_id : Nat
deriving Repr, DecidableEq

def DB.empty : DB :=
  { triggers := [], tool_runs := [], target_users := [],
    next_trigger_id := 1, next_run_id := 1, next_target_id := 1 }

/-- `db.get(ToolRun, rid)`. -/
def DB.getRun (db : DB) (rid : Nat) : Option ToolRun :=
  db.tool_runs.find? (fun r => r.id == rid)

/-- Commit a mutation of the row with id `rid` (no-op when absent). -/
def DB.updateRun (db : DB) (rid : Nat) (f : ToolRun → ToolRun) : DB :=
  { db with tool_runs := db.tool_runs.map (fun r => if r.id == rid then f r else r) }

/-- Status of a run, for stating lifecycle properties. -/
def DB.statusOf (db : DB) (rid : Nat) : Option String :=
  (db.getRun rid).map (fun r => r.status)

/-- Error text of a run (`none` also when the run does not exist). -/
def DB.errorOf (db : DB) (rid : Nat) : Option String :=
  (db.getRun rid).bind (fun r => r.error)

/-! ## Sync endpoint (`bulk_sync`, lines 135–187) -/

structure BulkSyncPayload where
  window : String
  distinct_ids : List String
  mode : String
deriving Repr, DecidableEq

structure SyncResponse where
  ok : Bool
  inserted : Nat
  removed : Nat
deriving Repr, DecidableEq

/-- The sync would violate the unique index on `target_users.distinct_id`
(line 61, created by `Base.metadata.create_all`): some id the endpoint is
about to insert — an incoming id with no *active* row — already has a row
in the table (necessarily an inactive one). -/
def syncCollision (p : BulkSyncPayload) (db : DB) : Bool :=
  (p.distinct_ids.dedup.filter (fun did =>
    !(db.target_users.any (fun r =>
      r.active == 1 && r.distinct_id == did)))).any
    (fun did => db.target_users.any (fun r => r.distinct_id == did))

/-- `POST /targets/bulk_sync`: `_require_secret` (lines 91–93) then the body
of `bulk_sync`. `secretParam` is `request.query_params.get("secret")`; `now`
stands for `datetime.utcnow()`. Returns the HTTP outcome (401, or 500 when
the first commit raises `IntegrityError`, or the JSON response) and the
committed database. -/
def bulk_sync (cfg : Config) (now : Nat) (secretParam : Option String)
    (p : BulkSyncPayload) (db : DB) : Except Nat SyncResponse × DB :=
  if secretParam ≠ some cfg.DISPATCHER_SECRET then (.error 401, db)
  -- The commit at line 163 flushes the deactivations, the new targets and
  -- the trigger together; a new target whose distinct_id already has a row
  -- violates the unique index, `IntegrityError` aborts the request (500)
  -- and the transaction rolls back, before any Job row is added.
  else if syncCollision p db then (.error 500, db)
  else
    -- `existing` = active rows keyed by distinct_id; `incoming = set(...)`
    let incoming := p.distinct_ids.dedup
    let targets1 :=
      if p.mode = "replace" then
        db.target_users.map (fun r =>
          if r.active == 1 && !(incoming.contains r.distinct_id) then
            { r with active := 0, updated_at := now }
          else r)
      else db.target_users
    let removed :=
      if p.mode = "replace" then
        (db.target_users.filter (fun r =>
          r.active == 1 && !(incoming.contains r.distinct_id))).length
      else 0
    -- `for did in incoming: if did not in existing`
    let newDids := incoming.filter (fun did =>
      !(db.target_users.any (fun r => r.active == 1 && r.distinct_id == did)))
    let newTargets := newDids.mapIdx (fun i did =>
      { id := db.next_target_id + i, distinct_id := did, window := p.window,
        active := 1, created_at := now, updated_at := now : TargetUser })
    let trig : Trigger :=
      { id := db.next_trigger_id, kind := "targets_sync",
        metric := "window:" ++ p.window, prev_value := 0,
        curr_value := incoming.length, pct_drop := 0, created_at := now }
    let run : ToolRun :=
      if !(optStrTruthy cfg.BRIGHTDATA_DATASET_SEARCH) then
        { id := db.next_run_id, trigger_id := some trig.id,
          tool := "brightdata:trigger", status := "error",
          input := some { RunInput.empty with reason := some "missing dataset" },
          output := none, error := some "Missing BRIGHTDATA_DATASET_SEARCH",
          created_at := now }
      else
        { id := db.next_run_id, trigger_id := some trig.id,
          tool := "brightdata:trigger", status := "queued",
          input := some { RunInput.empty with
            dataset_id := cfg.BRIGHTDATA_DATASET_SEARCH,
            inputs := some (.list build_search_inputs),
            format := some "json" },
          output := none, error := none, created_at := now }
    (.ok { ok := true, inserted := newDids.length, removed := removed },
     { triggers := db.triggers ++ [trig],
       tool_runs := db.tool_runs ++ [run],
       target_users := targets1 ++ newTargets,
       next_trigger_id := db.next_trigger_id + 1,
       next_run_id := db.next_run_id + 1,
       next_target_id := db.next_target_id + newDids.length })

/-! ## Worker (`_process_run_brightdata`, lines 229–303, and `worker_loop`,
lines 305–322) -/

/-- Outcome of one `POST` to the Bright Data trigger endpoint, in the cases
the code distinguishes. -/
inductive HttpResult where
  /-- 2xx/3xx: `raise_for_status` passes and `resp.json()` parses; carries
      `data.get("snapshot_id")` and the opaque body. -/
  | ok (snapshot_id : Option String) (raw : String)
  /-- Status 429 with the optional `Retry-After` header value. -/
  | rateLimited (retryAfter : Option String)
  /-- Other non-2xx status: `httpx.HTTPStatusError`. -/
  | httpStatus (code : Nat) (text : String)
  /-- `httpx.RequestError` (network failure). -/
  | requestErr (msg : String)
  /-- Any other exception (e.g. a body that fails to parse). -/
  | exn (msg : String)
deriving Repr, DecidableEq

/-- Query parameters sent with the trigger call (lines 260–265). -/
structure ReqParams where
  dataset_id : String
  format : String
  include_errors : Option String
  notify : Option String
  endpoint : Option String
deriving Repr, DecidableEq

/-- Build `params` from the payload fields (lines 244–265): `fmt` defaults
to `"json"`; `include_errors` is added whenever the key is present;
`notify`/`endpoint` only when both are truthy. -/
def requestParams (payload : RunInput) : ReqParams :=
  { dataset_id := (payload.dataset_id).getD "",
    format := (payload.format).getD "json",
    include_errors := (payload.include_errors).map (fun b => if b then "true" else "false"),
    notify :=
      if payload.notify == some true && optStrTruthy payload.endpoint then
        some "true"
      else none,
    endpoint :=
      if payload.notify == some true && optStrTruthy payload.endpoint then
        payload.endpoint
      else none }

/-- Externally visible worker actions, in order. -/
inductive Ev where
  | callApi (attempt : Nat) (params : ReqParams)
  | sleep (secs : Nat)
deriving Repr, DecidableEq

/-- Result of the retry loop. -/
inductive LoopOutcome where
  | success (out : RunOutput)
  | failed (last_err : Option String)
deriving Repr, DecidableEq

/-- One body of the `while attempt < 3` retry loop (lines 267–297),
structurally recursive on the remaining attempt budget (`fuel = 3 - attempt`
at every call, so `fuel = 0` is exactly the loop guard failing). `attempt`
is the counter value before the next `attempt += 1`; `net k` is the outcome
of the k-th call; the second component is the trace of calls and sleeps. -/
def runAttemptsFuel (net : Nat → HttpResult) (ps : ReqParams) :
    Nat → Nat → Option String → LoopOutcome × List Ev
  | 0, _, last_err => (.failed last_err, [])
  | fuel + 1, attempt, last_err =>
    let a := attempt + 1
    match net a with
    | .ok sid raw =>
      (.success { snapshot_id := sid, raw := raw }, [Ev.callApi a ps])
    | .rateLimited ra =>
      -- `wait = int(ra) if ra and ra.isdigit() else 2 ** attempt`
      let wait := match ra with
        | some s => if pyIsDigit s then pyInt s else 2 ^ a
        | none => 2 ^ a
      let r := runAttemptsFuel net ps fuel a last_err
      (r.1, Ev.callApi a ps :: Ev.sleep wait :: r.2)
    | .httpStatus code text =>
      let r := runAttemptsFuel net ps fuel a
        (some ("HTTP " ++ toString code ++ ": " ++ text.take 400))
      (r.1, Ev.callApi a ps :: Ev.sleep (2 ^ a) :: r.2)
    | .requestErr msg =>
      let r := runAttemptsFuel net ps fuel a (some ("RequestError: " ++ msg))
      (r.1, Ev.callApi a ps :: Ev.sleep (2 ^ a) :: r.2)
    | .exn msg =>
      let r := runAttemptsFuel net ps fuel a (some ("Exception: " ++ msg))
      (r.1, Ev.callApi a ps :: Ev.sleep (2 ^ a) :: r.2)

/-- The `while attempt < 3` retry loop entered with counter `attempt`. -/
def runAttempts (net : Nat → HttpResult) (ps : ReqParams) (attempt : Nat)
    (last_err : Option String) : LoopOutcome × List Ev :=
  runAttemptsFuel net ps (3 - attempt) attempt last_err

/-- `isinstance(inputs, list) and inputs`: the validation on the `inputs`
field (line 252). -/
def inputsNonEmptyList : InputsVal → Bool
  | .list l => !l.isEmpty
  | .nonList => false

/-- `_process_run_brightdata(run_id)` (lines 229–303) against database `db`,
returning the committed database and the worker's call/sleep trace. -/
def process_run_brightdata (cfg : Config) (net : Nat → HttpResult) (db : DB)
    (run_id : Nat) : DB × List Ev :=
  -- `if not token:` — checked before anything else (lines 230–237)
  if !(optStrTruthy cfg.BRIGHTDATA_TOKEN) then
    (db.updateRun run_id (fun r =>
      { r with status := "error", error := some "Missing BRIGHTDATA_TOKEN" }), [])
  else
    match db.getRun run_id with
    | none => (db, [])
    | some run =>
      -- `if not run or run.status != "queued" or not run.input: return`
      if run.status != "queued" || !(inputTruthy run.input) then (db, [])
      else
        let db1 := db.updateRun run_id (fun r => { r with status := "running" })
        let payload := run.input.getD RunInput.empty
        let dataset_id := payload.dataset_id
        let inputs : InputsVal := (payload.inputs).getD (.list [])
        -- `if not dataset_id or not isinstance(inputs, list) or not inputs:`
        if !(optStrTruthy dataset_id) || !(inputsNonEmptyList inputs) then
          (db1.updateRun run_id (fun r =>
            { r with status := "error",
                     error := some "Invalid input: need dataset_id and non-empty inputs[]" }),
           [])
        else
          let r := runAttempts net (requestParams payload) 0 none
          match r.1 with
          | .success out =>
            (db1.updateRun run_id (fun x =>
              { x with output := some out, status := "success" }), r.2)
          | .failed last_err =>
            (db1.updateRun run_id (fun x =>
              { x with status := "error",
                       error := some (last_err.getD "Unknown error") }), r.2)

/-- The poll query of `worker_loop` (lines 310–312): ids of up to
`WORKER_CONCURRENCY * 2` runs with `status == "queued"` and
`tool == "brightdata:trigger"`. -/
def pollIds (cfg : Config) (db : DB) : List Nat :=
  ((db.tool_runs.filter (fun r =>
    r.status == "queued" && r.tool == "brightdata:trigger")).take
      (cfg.WORKER_CONCURRENCY * 2)).map (fun r => r.id)

/-- Run the per-Job handler over a list of run ids, accumulating the trace. -/
def processMany (cfg : Config) (nets : Nat → Nat → HttpResult)
    (l : List Nat) (db : DB) (tr : List Ev) : DB × List Ev :=
  l.foldl (fun acc rid =>
    let r := process_run_brightdata cfg (nets rid) acc.1 rid
    (r.1, acc.2 ++ r.2)) (db, tr)

/-- One iteration of `worker_loop` (lines 305–322): poll queued run ids,
then run each to completion (the `asyncio.gather` under the semaphore is
modelled by sequential completion; each handler only touches its own run
id). `nets rid` is the network oracle used for run `rid`. -/
def worker_tick (cfg : Config) (nets : Nat → Nat → HttpResult) (db : DB) :
    DB × List Ev :=
  processMany cfg nets (pollIds cfg db) db []

/-- Error text the retry loop records for one attempt's outcome (`none` for
outcomes after which `last_err` is left unchanged). -/
def errTextOf : HttpResult → Option String
  | .ok _ _ => none
  | .rateLimited _ => none
  | .httpStatus code text => some ("HTTP " ++ toString code ++ ": " ++ text.take 400)
  | .requestErr msg => some ("RequestError: " ++ msg)
  | .exn msg => some ("Exception: " ++ msg)

/-- Row-level characterization of the per-Job handler: the value
`_process_run_brightdata` leaves in the processed run's row (proved to agree
with `process_run_brightdata` in `process_run_spec`). -/
def processedRow (cfg : Config) (net : Nat → HttpResult) (run : ToolRun) : ToolRun :=
  if !(optStrTruthy cfg.BRIGHTDATA_TOKEN) then
    { run with status := "error", error := some "Missing BRIGHTDATA_TOKEN" }
  else if run.status != "queued" || !(inputTruthy run.input) then run
  else
    let payload := run.input.getD RunInput.empty
    if !(optStrTruthy payload.dataset_id) ||
        !(inputsNonEmptyList ((payload.inputs).getD (.list []))) then
      { run with status := "error",
                 error := some "Invalid input: need dataset_id and non-empty inputs[]" }
    else
      match (runAttempts net (requestParams payload) 0 none).1 with
      | .success out => { run with status := "success", output := some out }
      | .failed last_err =>
        { run with status := "error", error := some (last_err.getD "Unknown error") }

/-- Databases reachable from the initial empty store through the module's
two mutating entry points (the configuration, clock, request data and
network behaviour are arbitrary at every step). -/
inductive Reachable : DB → Prop
  | init : Reachable DB.empty
  | sync (cfg : Config) (now : Nat) (secretParam : Option String)
      (p : BulkSyncPayload) {db : DB} : Reachable db →
      Reachable (bulk_sync cfg now secretParam p db).2
  | tick (cfg : Config) (nets : Nat → Nat → HttpResult) {db : DB} :
      Reachable db → Reachable (worker_tick cfg nets db).1

/-! ## Per-addition variant (`dispatcher_20250726131341.py`): `bulk_sync`
creates one queued `ToolRun` per inserted target (lines 62–92). The
`Trigger` and `TargetUser` tables have the same shape as above. -/

namespace V1

/-- Job input of the variant:
`{"dataset": "devpost_discussions", "args": {"user_distinct_id": did}, "format": "json"}`. -/
structure RunInput where
  dataset : String
  args_user_distinct_id : String
  format : String
deriving Repr, DecidableEq

/-- `ToolRun` row of the variant (same columns; only the worker stub ever
writes `output`). -/
structure ToolRun where
  id : Nat
  trigger_id : Option Nat
  tool : String
  status : String
  input : Option RunInput
  output : Option String
  error : Option String
  created_at : Nat
deriving Repr, DecidableEq

structure DB where
  triggers : List Trigger
  tool_runs : List ToolRun
  target_users : List TargetUser
  next_trigger_id : Nat
  next_run_id : Nat
  next_target_id : Nat
deriving Repr, DecidableEq

def DB.empty : DB :=
  { triggers := [], tool_runs := [], target_users := [],
    next_trigger_id := 1, next_run_id := 1, next_target_id := 1 }

/-- Flush the `ToolRun` added after the previous iteration's commit (the
trigger id and user id it was built from); the row id is assigned at
insert. -/
def flushPending (now : Nat) (db : DB) : Option (Nat × String) → DB
  | none => db
  | some (tid, did) =>
    { db with
      tool_runs := db.tool_runs ++
        [{ id := db.next_run_id, trigger_id := some tid,
           tool := "brightdata:run_job", status := "queued",
           input := some { dataset := "devpost_discussions",
                           args_user_distinct_id := did, format := "json" },
           output := none, error := none, created_at := now }],
      next_run_id := db.next_run_id + 1 }

/-- The per-addition insert loop from its second iteration on (the first
iteration, whose commit also flushes the pending deactivations, is handled
in `bulk_sync`). `orig` is the targets table at entry — the rows the unique
index on `distinct_id` can collide with. Each iteration adds a `TargetUser`
and a `Trigger` and commits, the commit also flushing the previous
iteration's pending `ToolRun`; when the added id already has a row, the
commit raises `IntegrityError`: everything still pending is lost and the
request aborts with the rows committed so far. The final `db.commit()`
flushes the last pending `ToolRun`. Returns whether the loop completed,
plus the committed store. -/
def insertLoopAux (window : String) (now : Nat) (orig : List TargetUser) :
    List String → DB → Option (Nat × String) → Bool × DB
  | [], db, pending => (true, flushPending now db pending)
  | did :: rest, db, pending =>
    if orig.any (fun r => r.distinct_id == did) then (false, db)
    else
      let db1 := flushPending now db pending
      let trigId := db1.next_trigger_id
      let db2 : DB :=
        { db1 with
          target_users := db1.target_users ++
            [{ id := db1.next_target_id, distinct_id := did, window := window,
               active := 1, created_at := now, updated_at := now }],
          triggers := db1.triggers ++
            [{ id := trigId, kind := "targets_sync",
               metric := "window:" ++ window, prev_value := 0, curr_value := 1,
               pct_drop := 0, created_at := now }],
          next_target_id := db1.next_target_id + 1,
          next_trigger_id := db1.next_trigger_id + 1 }
      insertLoopAux window now orig rest db2 (some (trigId, did))

/-- `POST /targets/bulk_sync` of the variant: deactivate the active rows
outside the incoming set, then for each genuinely new distinct_id insert an
active `TargetUser`, a `Trigger` (committing inside the loop), and one
queued `ToolRun`. The unique index on `target_users.distinct_id` (line 45)
makes a commit fail with `IntegrityError` when an inserted id already has
an (inactive) row: the request then returns 500 with only the rows
committed by the earlier iterations — nothing at all when the first
iteration's commit fails, since that commit also carries the
deactivations. -/
def bulk_sync (secret : String) (now : Nat) (secretParam : Option String)
    (p : BulkSyncPayload) (db : DB) : Except Nat SyncResponse × DB :=
  if secretParam ≠ some secret then (.error 401, db)
  else
    let incoming := p.distinct_ids.dedup
    let targets1 :=
      if p.mode = "replace" then
        db.target_users.map (fun r =>
          if r.active == 1 && !(incoming.contains r.distinct_id) then
            { r with active := 0, updated_at := now }
          else r)
      else db.target_users
    let removed :=
      if p.mode = "replace" then
        (db.target_users.filter (fun r =>
          r.active == 1 && !(incoming.contains r.distinct_id))).length
      else 0
    let newDids := incoming.filter (fun did =>
      !(db.target_users.any (fun r => r.active == 1 && r.distinct_id == did)))
    match newDids with
    | [] =>
      -- no insert iteration: the final commit flushes only the deactivations
      (.ok { ok := true, inserted := 0, removed := removed },
       { db with target_users := targets1 })
    | did0 :: rest =>
      -- the first iteration's commit flushes the deactivations as well
      if db.target_users.any (fun r => r.distinct_id == did0) then
        (.error 500, db)
      else
        let trigId := db.next_trigger_id
        let db1 : DB :=
          { triggers := db.triggers ++
              [{ id := trigId, kind := "targets_sync",
                 metric := "window:" ++ p.window, prev_value := 0,
                 curr_value := 1, pct_drop := 0, created_at := now }],
            tool_runs := db.tool_runs,
            target_users := targets1 ++
              [{ id := db.next_target_id, distinct_id := did0,
                 window := p.window, active := 1, created_at := now,
                 updated_at := now }],
            next_trigger_id := db.next_trigger_id + 1,
            next_run_id := db.next_run_id,
            next_target_id := db.next_target_id + 1 }
        let r := insertLoopAux p.window now db.target_users rest db1
          (some (trigId, did0))
        if r.1 then
          (.ok { ok := true, inserted := newDids.length, removed := removed },
           r.2)
        else (.error 500, r.2)

/-- Number of Jobs whose input is the per-user job for `did`. -/
def jobsFor (db : DB) (did : String) : Nat :=
  (db.tool_runs.filter (fun r =>
    match r.input with
    | some i => i.args_user_distinct_id == did
    | none => false)).length

end V1

/-! ## Concrete fixtures used by witnesses and counterexamples -/

/-- A fully configured environment. -/
def cfgA : Config :=
  { DISPATCHER_SECRET := "s3", BRIGHTDATA_TOKEN := some "tok",
    BRIGHTDATA_DATASET_SEARCH := some "gd_1", WORKER_CONCURRENCY := 5 }

/-- Same environment with `BRIGHTDATA_DATASET_SEARCH` unset. -/
def cfgNoDs : Config := { cfgA with BRIGHTDATA_DATASET_SEARCH := none }

/-- Same environment with `BRIGHTDATA_TOKEN` unset. -/
def cfgNoTok : Config := { cfgA with BRIGHTDATA_TOKEN := none }

def payA : BulkSyncPayload := { window := "W1", distinct_ids := ["a"], mode := "replace" }

/-- A queued run with a small valid payload (dataset id and one search
item), as a worker-side fixture. -/
def runQ : ToolRun :=
  { id := 1, trigger_id := none, tool := "brightdata:trigger",
    status := "queued",
    input := some { RunInput.empty with
      dataset_id := some "gd_1",
      inputs := some (.list [{ q := "Devpost review", gl := "us", num := 20,
                               meta_source := "web", meta_q := "Devpost review" }]),
      format := some "json" },
    output := none, error := none, created_at := 0 }

def dbQ : DB := { DB.empty with tool_runs := [runQ], next_run_id := 2 }

/-- A queued run whose `input` column is `NULL`. -/
def runNull : ToolRun := { runQ with input := none }

def dbNull : DB := { DB.empty with tool_runs := [runNull], next_run_id := 2 }

def payAB : BulkSyncPayload :=
  { window := "W1", distinct_ids := ["a", "b"], mode := "replace" }

/-- Empty replace sync: deactivates every active target. -/
def payNone : BulkSyncPayload :=
  { window := "W2", distinct_ids := [], mode := "replace" }

/-- Re-sync of `"a"` for a later window. -/
def payA3 : BulkSyncPayload :=
  { window := "W3", distinct_ids := ["a"], mode := "replace" }

/-- After syncing `{"a"}`: one active row for `a`. -/
def dbA1 : DB := (bulk_sync cfgA 10 (some "s3") payA DB.empty).2

/-- After then syncing `{}`: the row for `a` is deactivated, not deleted. -/
def dbA2 : DB := (bulk_sync cfgA 20 (some "s3") payNone dbA1).2

/-- The query parameters the worker builds for `runQ`. -/
def psA : ReqParams :=
  { dataset_id := "gd_1", format := "json", include_errors := none,
    notify := none, endpoint := none }

/-- A queued run whose payload is non-empty but lacks `dataset_id`. -/
def runNoDs : ToolRun :=
  { runQ with input := some { RunInput.empty with format := some "json" } }

def dbNoDs : DB := { DB.empty with tool_runs := [runNoDs], next_run_id := 2 }

/-- A run already in the terminal status `success`. -/
def runDone : ToolRun :=
  { runQ with
    status := "success",
    output := some { snapshot_id := some "snap", raw := "body" },
    error := none }

def dbDone : DB := { DB.empty with tool_runs := [runDone], next_run_id := 2 }

/-- Per-run oracle: immediate success everywhere. -/
def netsOk : Nat → Nat → HttpResult := fun _ _ => .ok (some "snap") "body"

/-- Oracle: first attempt 429 with `Retry-After: 5`, then success. -/
def net429Five : Nat → HttpResult := fun k =>
  if k == 1 then .rateLimited (some "5") else .ok (some "snap") "body"

/-- Oracle: three distinct failures. -/
def net3Fail : Nat → HttpResult := fun k =>
  if k == 1 then .requestErr "e1"
  else if k == 2 then .httpStatus 500 "boom"
  else .exn "e3"

/-- Oracle: rate-limited on every attempt, no header. -/
def net3RL : Nat → HttpResult := fun _ => .rateLimited none

/-- Oracle: immediate success. -/
def netOk : Nat → HttpResult := fun _ => .ok (some "snap") "body"

/-- C7 scenario, per-addition variant: `{"a","b"}` for `W1`, then
`{"b","c"}` for `W2`. -/
def v1db1 : V1.DB :=
  (V1.bulk_sync "s3" 100 (some "s3")
    { window := "W1", distinct_ids := ["a", "b"], mode := "replace" } V1.DB.empty).2

def v1db2 : V1.DB :=
  (V1.bulk_sync "s3" 200 (some "s3")
    { window := "W2", distinct_ids := ["b", "c"], mode := "replace" } v1db1).2

/-! ## Invariant predicates -/

/-- Mutual exclusion of `output` and `error` relative to `status`: both
empty while `queued`/`running`, `error` empty on `success`, `output` empty
on `error`. -/
def statusExcl (r : ToolRun) : Prop :=
  ((r.status = "queued" ∨ r.status = "running") → r.output = none ∧ r.error = none) ∧
  (r.status = "success" → r.error = none) ∧
  (r.status = "error" → r.output = none)

/-- Auxiliary store invariant: distinct run ids, ids below the
auto-increment counter, and `statusExcl` for every row. -/
def StoreInv (db : DB) : Prop :=
  (db.tool_runs.map (fun r => r.id)).Nodup ∧
  (∀ r ∈ db.tool_runs, r.id < db.next_run_id) ∧
  (∀ r ∈ db.tool_runs, statusExcl r)

/-! ## Lemmas about the store -/

theorem find?_id_map_self (rid : Nat) (f : ToolRun → ToolRun)
    (hf : ∀ r, (f r).id = r.id) (l : List ToolRun) :
    (l.map (fun r => if r.id == rid then f r else r)).find? (fun r => r.id == rid)
      = (l.find? (fun r => r.id == rid)).map f := by
  induction l with
  | nil => simp
  | cons a t ih =>
    by_cases h : a.id = rid
    · simp [h, hf]
    · simpa [h] using ih

theorem find?_id_map_other (rid rid' : Nat) (hne : rid' ≠ rid)
    (f : ToolRun → ToolRun) (hf : ∀ r, (f r).id = r.id) (l : List ToolRun) :
    (l.map (fun r => if r.id == rid then f r else r)).find? (fun r => r.id == rid')
      = l.find? (fun r => r.id == rid') := by
  induction l with
  | nil => simp
  | cons a t ih =>
    by_cases h : a.id = rid
    · have h3 : (f a).id ≠ rid' := by rw [hf]; omega
      have h5 : rid ≠ rid' := by omega
      simpa [h, h3, h5] using ih
    · by_cases h2 : a.id = rid'
      · simp [h, h2, hne]
      · simpa [h, h2] using ih

theorem DB.getRun_updateRun_self (db : DB) (rid : Nat) (f : ToolRun → ToolRun)
    (hf : ∀ r, (f r).id = r.id) :
    (db.updateRun rid f).getRun rid = (db.getRun rid).map f :=
  find?_id_map_self rid f hf db.tool_runs

theorem DB.getRun_updateRun_other (db : DB) (rid rid' : Nat) (hne : rid' ≠ rid)
    (f : ToolRun → ToolRun) (hf : ∀ r, (f r).id = r.id) :
    (db.updateRun rid f).getRun rid' = db.getRun rid' :=
  find?_id_map_other rid rid' hne f hf db.tool_runs

theorem DB.updateRun_ids (db : DB) (rid : Nat) (f : ToolRun → ToolRun)
    (hf : ∀ r, (f r).id = r.id) :
    ((db.updateRun rid f).tool_runs).map (fun r => r.id)
      = db.tool_runs.map (fun r => r.id) := by
  unfold DB.updateRun
  simp only [List.map_map]
  refine List.map_congr_left ?_
  intro r _
  by_cases h : r.id = rid <;> simp [h, hf]

theorem DB.getRun_mem {db : DB} {rid : Nat} {run : ToolRun}
    (h : db.getRun rid = some run) : run ∈ db.tool_runs ∧ run.id = rid := by
  unfold DB.getRun at h
  refine ⟨List.mem_of_find?_eq_some h, ?_⟩
  have h2 := List.find?_some h
  simpa using h2

theorem find?_id_of_mem : ∀ (l : List ToolRun),
    (l.map (fun r => r.id)).Nodup →
    ∀ {r : ToolRun}, r ∈ l → l.find? (fun x => x.id == r.id) = some r := by
  intro l
  induction l with
  | nil => intro _ r hr; cases hr
  | cons a t ih =>
    intro hnd r hr
    have hnd2 : (∀ x ∈ t, ¬x.id = a.id) ∧ (t.map (fun r => r.id)).Nodup := by
      simpa using hnd
    rcases List.mem_cons.mp hr with h | h
    · subst h; simp
    · have hne : (a.id == r.id) = false := by
        simp only [beq_eq_false_iff_ne, ne_eq]
        intro he
        exact hnd2.1 r h he.symm
      simp only [List.find?_cons, hne]
      exact ih hnd2.2 h

theorem DB.mem_getRun {db : DB}
    (hnd : (db.tool_runs.map (fun r => r.id)).Nodup)
    {r : ToolRun} (hr : r ∈ db.tool_runs) : db.getRun r.id = some r :=
  find?_id_of_mem db.tool_runs hnd hr

/-- The per-Job handler commits exactly `processedRow` into the processed
run's row. -/
theorem process_run_spec (cfg : Config) (net : Nat → HttpResult) (db : DB)
    (rid : Nat) (run : ToolRun) (hget : db.getRun rid = some run) :
    (process_run_brightdata cfg net db rid).1.getRun rid
      = some (processedRow cfg net run) := by
  unfold process_run_brightdata processedRow
  cases ht : optStrTruthy cfg.BRIGHTDATA_TOKEN with
  | false =>
    simp only [ht, Bool.not_false, if_pos]
    have h1 := DB.getRun_updateRun_self db rid
      (fun r => { r with status := "error",
                         error := some "Missing BRIGHTDATA_TOKEN" })
      (fun r => rfl)
    rw [h1, hget]
    rfl
  | true =>
    simp only [ht, Bool.not_true, Bool.false_eq_true, if_false, hget]
    cases hq : (run.status != "queued" || !(inputTruthy run.input)) with
    | true => simp only [hq, if_pos]; exact hget
    | false =>
      simp only [hq, Bool.false_eq_true, if_false]
      have h1 := DB.getRun_updateRun_self db rid
        (fun r => { r with status := "running" }) (fun r => rfl)
      cases hv : (!(optStrTruthy (run.input.getD RunInput.empty).dataset_id) ||
          !(inputsNonEmptyList (((run.input.getD RunInput.empty).inputs).getD
            (.list [])))) with
      | true =>
        simp only [hv, if_pos]
        have h2 := DB.getRun_updateRun_self
          (db.updateRun rid (fun r => { r with status := "running" })) rid
          (fun r =>
            { r with
              status := "error",
              error := some "Invalid input: need dataset_id and non-empty inputs[]" })
          (fun r => rfl)
        rw [h2, h1, hget]
        rfl
      | false =>
        simp only [hv, Bool.false_eq_true, if_false]
        cases hr : (runAttempts net (requestParams (run.input.getD RunInput.empty))
            0 none).1 with
        | success out =>
          simp only [hr]
          have h2 := DB.getRun_updateRun_self
            (db.updateRun rid (fun r => { r with status := "running" })) rid
            (fun x => { x with output := some out, status := "success" })
            (fun r => rfl)
          rw [h2, h1, hget]
          rfl
        | failed last_err =>
          simp only [hr]
          have h2 := DB.getRun_updateRun_self
            (db.updateRun rid (fun r => { r with status := "running" })) rid
            (fun x => { x with status := "error",
                               error := some (last_err.getD "Unknown error") })
            (fun r => rfl)
          rw [h2, h1, hget]
          rfl

theorem DB.updateRun_updateRun (db : DB) (rid : Nat) (f g : ToolRun → ToolRun)
    (hf : ∀ r, (f r).id = r.id) :
    (db.updateRun rid f).updateRun rid g = db.updateRun rid (fun r => g (f r)) := by
  unfold DB.updateRun
  simp only [List.map_map]
  congr 1
  refine List.map_congr_left ?_
  intro r _
  by_cases h : r.id = rid
  · simp [h, hf]
  · simp [h]

/-- Every branch of the per-Job handler either leaves the database alone or
commits an id-preserving rewrite of the processed run's row. -/
theorem process_run_shape (cfg : Config) (net : Nat → HttpResult) (db : DB)
    (rid : Nat) :
    (process_run_brightdata cfg net db rid).1 = db ∨
    ∃ f : ToolRun → ToolRun, (∀ r, (f r).id = r.id) ∧
      (process_run_brightdata cfg net db rid).1 = db.updateRun rid f := by
  unfold process_run_brightdata
  cases ht : optStrTruthy cfg.BRIGHTDATA_TOKEN with
  | false =>
    right
    refine ⟨fun r =>
        { r with status := "error", error := some "Missing BRIGHTDATA_TOKEN" },
      fun r => rfl, ?_⟩
    simp only [ht, Bool.not_false, if_pos]
  | true =>
    simp only [ht, Bool.not_true, Bool.false_eq_true, if_false]
    cases hg : db.getRun rid with
    | none => left; rfl
    | some run =>
      simp only []
      cases hq : (run.status != "queued" || !(inputTruthy run.input)) with
      | true => left; simp [hq]
      | false =>
        simp only [hq, Bool.false_eq_true, if_false]
        cases hv : (!(optStrTruthy (run.input.getD RunInput.empty).dataset_id) ||
            !(inputsNonEmptyList (((run.input.getD RunInput.empty).inputs).getD
              (.list [])))) with
        | true =>
          right
          refine ⟨fun r =>
              { r with
                status := "error",
                error := some "Invalid input: need dataset_id and non-empty inputs[]" },
            fun r => rfl, ?_⟩
          simp only [hv, if_pos]
          exact DB.updateRun_updateRun db rid
            (fun r => { r with status := "running" })
            (fun r =>
              { r with
                status := "error",
                error := some "Invalid input: need dataset_id and non-empty inputs[]" })
            (fun r => rfl)
        | false =>
          simp only [hv, Bool.false_eq_true, if_false]
          cases hr : (runAttempts net (requestParams (run.input.getD RunInput.empty))
              0 none).1 with
          | success out =>
            right
            refine ⟨fun x => { x with output := some out, status := "success" },
              fun r => rfl, ?_⟩
            simp only [hr]
            exact DB.updateRun_updateRun db rid
              (fun r => { r with status := "running" })
              (fun x => { x with output := some out, status := "success" })
              (fun r => rfl)
          | failed last_err =>
            right
            refine ⟨fun x =>
                { x with
                  status := "error",
                  error := some (last_err.getD "Unknown error") },
              fun r => rfl, ?_⟩
            simp only [hr]
            exact DB.updateRun_updateRun db rid
              (fun r => { r with status := "running" })
              (fun x =>
                { x with
                  status := "error",
                  error := some (last_err.getD "Unknown error") })
              (fun r => rfl)

theorem process_run_getRun_other (cfg : Config) (net : Nat → HttpResult)
    (db : DB) (rid rid' : Nat) (hne : rid' ≠ rid) :
    (process_run_brightdata cfg net db rid).1.getRun rid' = db.getRun rid' := by
  rcases process_run_shape cfg net db rid with h | ⟨f, hf, h⟩
  · rw [h]
  · rw [h, DB.getRun_updateRun_other db rid rid' hne f hf]

theorem process_run_frame (cfg : Config) (net : Nat → HttpResult) (db : DB)
    (rid : Nat) :
    (process_run_brightdata cfg net db rid).1.triggers = db.triggers ∧
    (process_run_brightdata cfg net db rid).1.target_users = db.target_users ∧
    (process_run_brightdata cfg net db rid).1.next_trigger_id = db.next_trigger_id ∧
    (process_run_brightdata cfg net db rid).1.next_run_id = db.next_run_id ∧
    (process_run_brightdata cfg net db rid).1.next_target_id = db.next_target_id ∧
    ((process_run_brightdata cfg net db rid).1.tool_runs).map (fun r => r.id)
      = db.tool_runs.map (fun r => r.id) := by
  rcases process_run_shape cfg net db rid with h | ⟨f, hf, h⟩
  · rw [h]
    exact ⟨rfl, rfl, rfl, rfl, rfl, rfl⟩
  · rw [h]
    exact ⟨rfl, rfl, rfl, rfl, rfl, DB.updateRun_ids db rid f hf⟩

theorem processMany_cons (cfg : Config) (nets : Nat → Nat → HttpResult)
    (j : Nat) (t : List Nat) (db : DB) (tr : List Ev) :
    processMany cfg nets (j :: t) db tr
      = processMany cfg nets t (process_run_brightdata cfg (nets j) db j).1
          (tr ++ (process_run_brightdata cfg (nets j) db j).2) := rfl

/-- Effect of a whole poll batch on one run's row: processed once if its id
is in the (duplicate-free) batch, untouched otherwise. -/
theorem processMany_getRun (cfg : Config) (nets : Nat → Nat → HttpResult) :
    ∀ (l : List Nat), l.Nodup →
    ∀ (db : DB) (tr : List Ev) (rid : Nat) (run : ToolRun),
      db.getRun rid = some run →
      (processMany cfg nets l db tr).1.getRun rid
        = if rid ∈ l then some (processedRow cfg (nets rid) run) else some run := by
  intro l
  induction l with
  | nil =>
    intro _ db tr rid run hget
    simpa using hget
  | cons j t ih =>
    intro hnd db tr rid run hget
    have hnd2 := List.nodup_cons.mp hnd
    rw [processMany_cons]
    by_cases hj : rid = j
    · subst hj
      have h1 : (process_run_brightdata cfg (nets rid) db rid).1.getRun rid
          = some (processedRow cfg (nets rid) run) :=
        process_run_spec cfg (nets rid) db rid run hget
      rw [ih hnd2.2 _ _ rid _ h1]
      simp [hnd2.1]
    · have h1 : (process_run_brightdata cfg (nets j) db j).1.getRun rid
          = some run :=
        (process_run_getRun_other cfg (nets j) db j rid hj).trans hget
      rw [ih hnd2.2 _ _ rid run h1]
      simp [List.mem_cons, hj]

theorem processMany_frame (cfg : Config) (nets : Nat → Nat → HttpResult) :
    ∀ (l : List Nat) (db : DB) (tr : List Ev),
    (processMany cfg nets l db tr).1.triggers = db.triggers ∧
    (processMany cfg nets l db tr).1.target_users = db.target_users ∧
    (processMany cfg nets l db tr).1.next_trigger_id = db.next_trigger_id ∧
    (processMany cfg nets l db tr).1.next_run_id = db.next_run_id ∧
    (processMany cfg nets l db tr).1.next_target_id = db.next_target_id ∧
    ((processMany cfg nets l db tr).1.tool_runs).map (fun r => r.id)
      = db.tool_runs.map (fun r => r.id) := by
  intro l
  induction l with
  | nil => intro db tr; exact ⟨rfl, rfl, rfl, rfl, rfl, rfl⟩
  | cons j t ih =>
    intro db tr
    rw [processMany_cons]
    have h1 := process_run_frame cfg (nets j) db j
    have h2 := ih (process_run_brightdata cfg (nets j) db j).1
      (tr ++ (process_run_brightdata cfg (nets j) db j).2)
    exact ⟨h2.1.trans h1.1, h2.2.1.trans h1.2.1, h2.2.2.1.trans h1.2.2.1,
      h2.2.2.2.1.trans h1.2.2.2.1, h2.2.2.2.2.1.trans h1.2.2.2.2.1,
      h2.2.2.2.2.2.trans h1.2.2.2.2.2⟩

theorem pollIds_nodup (cfg : Config) (db : DB)
    (hnd : (db.tool_runs.map (fun r => r.id)).Nodup) :
    (pollIds cfg db).Nodup := by
  unfold pollIds
  have hsub : (((db.tool_runs.filter (fun r =>
      r.status == "queued" && r.tool == "brightdata:trigger")).take
        (cfg.WORKER_CONCURRENCY * 2)).map (fun r => r.id)).Sublist
      (db.tool_runs.map (fun r => r.id)) :=
    List.Sublist.map _ ((List.take_sublist _ _).trans (List.filter_sublist _))
  exact List.Nodup.sublist hsub hnd

theorem mem_pollIds (cfg : Config) (db : DB) (rid : Nat)
    (h : rid ∈ pollIds cfg db) :
    ∃ r ∈ db.tool_runs, r.id = rid ∧ r.status = "queued" ∧
      r.tool = "brightdata:trigger" := by
  unfold pollIds at h
  rcases List.mem_map.mp h with ⟨r, hr, hid⟩
  have hr2 := List.mem_of_mem_take hr
  have hm := List.mem_filter.mp hr2
  have hprop : r.status = "queued" ∧ r.tool = "brightdata:trigger" := by
    simpa using hm.2
  exact ⟨r, hm.1, hid, hprop.1, hprop.2⟩

/-- A run whose id is polled is the queued row `getRun` returns. -/
theorem pollIds_status (cfg : Config) (db : DB) (rid : Nat) (run : ToolRun)
    (hnd : (db.tool_runs.map (fun r => r.id)).Nodup)
    (hget : db.getRun rid = some run) (h : rid ∈ pollIds cfg db) :
    run.status = "queued" := by
  rcases mem_pollIds cfg db rid h with ⟨r, hrm, hrid, hq, _⟩
  have h2 := DB.mem_getRun hnd hrm
  rw [hrid, hget] at h2
  cases h2
  exact hq

/-- Effect of one worker tick on one run's row. -/
theorem worker_tick_getRun (cfg : Config) (nets : Nat → Nat → HttpResult)
    (db : DB) (hnd : (db.tool_runs.map (fun r => r.id)).Nodup)
    (rid : Nat) (run : ToolRun) (hget : db.getRun rid = some run) :
    (worker_tick cfg nets db).1.getRun rid
      = if rid ∈ pollIds cfg db then some (processedRow cfg (nets rid) run)
        else some run :=
  processMany_getRun cfg nets (pollIds cfg db) (pollIds_nodup cfg db hnd)
    db [] rid run hget

theorem statusExcl_of_none {r : ToolRun} (ho : r.output = none)
    (he : r.error = none) : statusExcl r :=
  ⟨fun _ => ⟨ho, he⟩, fun _ => he, fun _ => ho⟩

theorem statusExcl_of_error {r : ToolRun} (h : r.status = "error")
    (ho : r.output = none) : statusExcl r := by
  refine ⟨?_, ?_, fun _ => ho⟩
  · intro hc
    rw [h] at hc
    rcases hc with hc | hc <;> exact absurd hc (by decide)
  · intro hs
    rw [h] at hs
    exact absurd hs (by decide)

theorem statusExcl_of_success {r : ToolRun} (h : r.status = "success")
    (he : r.error = none) : statusExcl r := by
  refine ⟨?_, fun _ => he, ?_⟩
  · intro hc
    rw [h] at hc
    rcases hc with hc | hc <;> exact absurd hc (by decide)
  · intro hs
    rw [h] at hs
    exact absurd hs (by decide)

/-- The handler's committed row is either untouched or carries a terminal
status. -/
theorem processedRow_status_cases (cfg : Config) (net : Nat → HttpResult)
    (run : ToolRun) :
    processedRow cfg net run = run ∨
    (processedRow cfg net run).status = "success" ∨
    (processedRow cfg net run).status = "error" := by
  unfold processedRow
  cases ht : optStrTruthy cfg.BRIGHTDATA_TOKEN with
  | false => right; right; simp [ht]
  | true =>
    simp only [ht, Bool.not_true, Bool.false_eq_true, if_false]
    cases hq : (run.status != "queued" || !(inputTruthy run.input)) with
    | true => left; simp [hq]
    | false =>
      simp only [hq, Bool.false_eq_true, if_false]
      cases hv : (!(optStrTruthy (run.input.getD RunInput.empty).dataset_id) ||
          !(inputsNonEmptyList (((run.input.getD RunInput.empty).inputs).getD
            (.list [])))) with
      | true => right; right; simp [hv]
      | false =>
        simp only [hv, Bool.false_eq_true, if_false]
        cases hr : (runAttempts net (requestParams (run.input.getD RunInput.empty))
            0 none).1 with
        | success out => right; left; simp [hr]
        | failed last_err => right; right; simp [hr]

/-- The handler's committed row keeps `output`/`error` mutually exclusive
when the input row did. -/
theorem processedRow_excl (cfg : Config) (net : Nat → HttpResult)
    (run : ToolRun) (hq : run.status = "queued") (hx : statusExcl run) :
    statusExcl (processedRow cfg net run) := by
  have ho := (hx.1 (Or.inl hq)).1
  have he := (hx.1 (Or.inl hq)).2
  unfold processedRow
  cases ht : optStrTruthy cfg.BRIGHTDATA_TOKEN with
  | false =>
    simp only [ht, Bool.not_false, if_pos]
    exact statusExcl_of_error rfl ho
  | true =>
    simp only [ht, Bool.not_true, Bool.false_eq_true, if_false]
    cases hqc : (run.status != "queued" || !(inputTruthy run.input)) with
    | true => simpa [hqc] using hx
    | false =>
      simp only [hqc, Bool.false_eq_true, if_false]
      cases hv : (!(optStrTruthy (run.input.getD RunInput.empty).dataset_id) ||
          !(inputsNonEmptyList (((run.input.getD RunInput.empty).inputs).getD
            (.list [])))) with
      | true =>
        simp only [hv, if_pos]
        exact statusExcl_of_error rfl ho
      | false =>
        simp only [hv, Bool.false_eq_true, if_false]
        cases hr : (runAttempts net (requestParams (run.input.getD RunInput.empty))
            0 none).1 with
        | success out =>
          simp only [hr]
          exact statusExcl_of_success rfl he
        | failed last_err =>
          simp only [hr]
          exact statusExcl_of_error rfl ho

theorem bulk_sync_auth_fail (cfg : Config) (now : Nat) (sp : Option String)
    (p : BulkSyncPayload) (db : DB) (hsp : sp ≠ some cfg.DISPATCHER_SECRET) :
    bulk_sync cfg now sp p db = (.error 401, db) := by
  unfold bulk_sync
  rw [if_pos hsp]

/-- An authorized sync whose incoming set collides with an existing
(inactive) target row hits the unique index: `IntegrityError`, the
transaction rolls back, the endpoint fails with 500 and nothing — no
Target update, no Job — is committed. -/
theorem bulk_sync_collision_fail (cfg : Config) (now : Nat)
    (sp : Option String) (p : BulkSyncPayload) (db : DB)
    (hsp : sp = some cfg.DISPATCHER_SECRET)
    (hcol : syncCollision p db = true) :
    bulk_sync cfg now sp p db = (.error 500, db) := by
  unfold bulk_sync
  rw [if_neg (by simp [hsp]), if_pos hcol]

/-- An authorized sync appends exactly one new Job row, whose shape depends
only on whether the search dataset is configured. -/
theorem bulk_sync_new_run (cfg : Config) (now : Nat) (sp : Option String)
    (p : BulkSyncPayload) (db : DB) (hsp : sp = some cfg.DISPATCHER_SECRET)
    (hnocol : syncCollision p db = false) :
    ∃ run : ToolRun,
      (bulk_sync cfg now sp p db).2.tool_runs = db.tool_runs ++ [run] ∧
      (bulk_sync cfg now sp p db).2.next_run_id = db.next_run_id + 1 ∧
      run.id = db.next_run_id ∧ run.output = none ∧
      (optStrTruthy cfg.BRIGHTDATA_DATASET_SEARCH = true →
        run.status = "queued" ∧ run.error = none) ∧
      (optStrTruthy cfg.BRIGHTDATA_DATASET_SEARCH = false →
        run.status = "error" ∧
        run.error = some "Missing BRIGHTDATA_DATASET_SEARCH") := by
  unfold bulk_sync
  rw [if_neg (by simp [hsp]), if_neg (by rw [hnocol]; decide)]
  cases hds : optStrTruthy cfg.BRIGHTDATA_DATASET_SEARCH with
  | false =>
    refine ⟨{ id := db.next_run_id, trigger_id := some db.next_trigger_id, tool := "brightdata:trigger", status := "error", input := some { RunInput.empty with reason := some "missing dataset" }, output := none, error := some "Missing BRIGHTDATA_DATASET_SEARCH", created_at := now }, ?_, rfl, rfl, rfl, ?_, fun _ => ⟨rfl, rfl⟩⟩
    · simp [hds]
    · intro hcontra
      exact absurd hcontra (by decide)
  | true =>
    refine ⟨{ id := db.next_run_id, trigger_id := some db.next_trigger_id, tool := "brightdata:trigger", status := "queued", input := some { RunInput.empty with dataset_id := cfg.BRIGHTDATA_DATASET_SEARCH, inputs := some (.list build_search_inputs), format := some "json" }, output := none, error := none, created_at := now }, ?_, rfl, rfl, rfl, fun _ => ⟨rfl, rfl⟩, ?_⟩
    · simp [hds]
    · intro hcontra
      exact absurd hcontra (by decide)

theorem StoreInv_sync (cfg : Config) (now : Nat) (sp : Option String)
    (p : BulkSyncPayload) (db : DB) (h : StoreInv db) :
    StoreInv (bulk_sync cfg now sp p db).2 := by
  by_cases hsp : sp = some cfg.DISPATCHER_SECRET
  · by_cases hcol : syncCollision p db = true
    · rw [bulk_sync_collision_fail cfg now sp p db hsp hcol]
      exact h
    rcases bulk_sync_new_run cfg now sp p db hsp (Bool.eq_false_iff.mpr hcol) with
      ⟨run, hruns, hnext, hid, hout, hqc, hec⟩
    obtain ⟨hnd, hbound, hexcl⟩ := h
    refine ⟨?_, ?_, ?_⟩
    · rw [hruns, List.map_append]
      refine List.Nodup.append hnd (by simp) ?_
      intro x hx hx2
      rcases List.mem_map.mp hx with ⟨r0, hr0, hideq⟩
      have h1 := hbound r0 hr0
      have h2 : x = run.id := by simpa using hx2
      rw [hid] at h2
      omega
    · intro r hr
      rw [hruns] at hr
      rw [hnext]
      rcases List.mem_append.mp hr with h1 | h1
      · have := hbound r h1
        omega
      · have : r = run := by simpa using h1
        rw [this, hid]
        omega
    · intro r hr
      rw [hruns] at hr
      rcases List.mem_append.mp hr with h1 | h1
      · exact hexcl r h1
      · have heq : r = run := by simpa using h1
        rw [heq]
        cases hds : optStrTruthy cfg.BRIGHTDATA_DATASET_SEARCH with
        | true => exact statusExcl_of_none hout (hqc hds).2
        | false => exact statusExcl_of_error (hec hds).1 hout
  · rw [bulk_sync_auth_fail cfg now sp p db hsp]
    exact h

theorem StoreInv_tick (cfg : Config) (nets : Nat → Nat → HttpResult) (db : DB)
    (h : StoreInv db) : StoreInv (worker_tick cfg nets db).1 := by
  obtain ⟨hnd, hbound, hexcl⟩ := h
  have hfr := processMany_frame cfg nets (pollIds cfg db) db []
  have hids : ((worker_tick cfg nets db).1.tool_runs).map (fun r => r.id)
      = db.tool_runs.map (fun r => r.id) := hfr.2.2.2.2.2
  have hnr : (worker_tick cfg nets db).1.next_run_id = db.next_run_id :=
    hfr.2.2.2.1
  refine ⟨?_, ?_, ?_⟩
  · rw [hids]; exact hnd
  · intro r hr
    have hmem : r.id ∈ db.tool_runs.map (fun x => x.id) := by
      rw [← hids]
      exact List.mem_map_of_mem _ hr
    rcases List.mem_map.mp hmem with ⟨r0, hr0, hideq⟩
    rw [hnr, ← hideq]
    exact hbound r0 hr0
  · intro r hr
    have hnd' : (((worker_tick cfg nets db).1.tool_runs).map (fun x => x.id)).Nodup := by
      rw [hids]; exact hnd
    have hget' : (worker_tick cfg nets db).1.getRun r.id = some r :=
      DB.mem_getRun hnd' hr
    have hmem : r.id ∈ db.tool_runs.map (fun x => x.id) := by
      rw [← hids]
      exact List.mem_map_of_mem _ hr
    rcases List.mem_map.mp hmem with ⟨r0, hr0, hideq⟩
    have hget0 : db.getRun r.id = some r0 := by
      rw [← hideq]
      exact DB.mem_getRun hnd hr0
    have hw := worker_tick_getRun cfg nets db hnd r.id r0 hget0
    rw [hget'] at hw
    by_cases hin : r.id ∈ pollIds cfg db
    · rw [if_pos hin] at hw
      have hq0 : r0.status = "queued" :=
        pollIds_status cfg db r.id r0 hnd hget0 hin
      have heq : r = processedRow cfg (nets r.id) r0 := Option.some.inj hw
      rw [heq]
      exact processedRow_excl cfg (nets r.id) r0 hq0 (hexcl r0 hr0)
    · rw [if_neg hin] at hw
      have heq : r = r0 := Option.some.inj hw
      rw [heq]
      exact hexcl r0 hr0

theorem reachable_StoreInv : ∀ {db : DB}, Reachable db → StoreInv db := by
  intro db h
  induction h with
  | init => refine ⟨?_, ?_, ?_⟩ <;> simp [DB.empty, StoreInv]
  | sync cfg now secretParam p _ ih => exact StoreInv_sync _ _ _ _ _ ih
  | tick cfg nets _ ih => exact StoreInv_tick _ _ _ ih

/-! ## Lemmas about the retry loop -/

theorem runAttempts_stop (net : Nat → HttpResult) (ps : ReqParams)
    (last : Option String) : runAttempts net ps 3 last = (.failed last, []) := rfl

theorem runAttempts_ok_step (net : Nat → HttpResult) (ps : ReqParams) (a : Nat)
    (last : Option String) (sid : Option String) (raw : String) (ha : a < 3)
    (hnet : net (a + 1) = .ok sid raw) :
    runAttempts net ps a last
      = (.success { snapshot_id := sid, raw := raw }, [Ev.callApi (a + 1) ps]) := by
  have h30 : 3 - a = (3 - (a + 1)) + 1 := by omega
  unfold runAttempts
  rw [h30]
  simp only [runAttemptsFuel, hnet]

theorem runAttempts_rl_step (net : Nat → HttpResult) (ps : ReqParams) (a : Nat)
    (last : Option String) (ra : Option String) (ha : a < 3)
    (hnet : net (a + 1) = .rateLimited ra) :
    runAttempts net ps a last
      = ((runAttempts net ps (a + 1) last).1,
         Ev.callApi (a + 1) ps ::
           Ev.sleep (match ra with
             | some s => if pyIsDigit s then pyInt s else 2 ^ (a + 1)
             | none => 2 ^ (a + 1)) ::
           (runAttempts net ps (a + 1) last).2) := by
  have h30 : 3 - a = (3 - (a + 1)) + 1 := by omega
  unfold runAttempts
  rw [h30]
  simp only [runAttemptsFuel, hnet]
  cases ra <;> rfl

theorem runAttempts_err_step (net : Nat → HttpResult) (ps : ReqParams) (a : Nat)
    (last : Option String) (e : String) (ha : a < 3)
    (he : errTextOf (net (a + 1)) = some e) :
    runAttempts net ps a last
      = ((runAttempts net ps (a + 1) (some e)).1,
         Ev.callApi (a + 1) ps :: Ev.sleep (2 ^ (a + 1)) ::
           (runAttempts net ps (a + 1) (some e)).2) := by
  cases hnet : net (a + 1) with
  | ok sid raw =>
    rw [hnet] at he
    exact absurd he (by simp [errTextOf])
  | rateLimited ra =>
    rw [hnet] at he
    exact absurd he (by simp [errTextOf])
  | httpStatus code text =>
    rw [hnet] at he
    simp only [errTextOf, Option.some.injEq] at he
    subst he
    have h30 : 3 - a = (3 - (a + 1)) + 1 := by omega
    unfold runAttempts
    rw [h30]
    simp only [runAttemptsFuel, hnet]
  | requestErr msg =>
    rw [hnet] at he
    simp only [errTextOf, Option.some.injEq] at he
    subst he
    have h30 : 3 - a = (3 - (a + 1)) + 1 := by omega
    unfold runAttempts
    rw [h30]
    simp only [runAttemptsFuel, hnet]
  | exn msg =>
    rw [hnet] at he
    simp only [errTextOf, Option.some.injEq] at he
    subst he
    have h30 : 3 - a = (3 - (a + 1)) + 1 := by omega
    unfold runAttempts
    rw [h30]
    simp only [runAttemptsFuel, hnet]

/-- Three failing attempts: the loop returns the error text of the third
attempt and sleeps `2^1, 2^2, 2^3` seconds in between. -/
theorem runAttempts_three_err (net : Nat → HttpResult) (ps : ReqParams)
    (e1 e2 e3 : String) (h1 : errTextOf (net 1) = some e1)
    (h2 : errTextOf (net 2) = some e2) (h3 : errTextOf (net 3) = some e3) :
    runAttempts net ps 0 none
      = (.failed (some e3),
         [Ev.callApi 1 ps, Ev.sleep 2, Ev.callApi 2 ps, Ev.sleep 4,
          Ev.callApi 3 ps, Ev.sleep 8]) := by
  rw [runAttempts_err_step net ps 0 none e1 (by omega) h1]
  rw [runAttempts_err_step net ps 1 (some e1) e2 (by omega) h2]
  rw [runAttempts_err_step net ps 2 (some e2) e3 (by omega) h3]
  rw [runAttempts_stop]
  simp

/-- Three rate-limited attempts: no error text is ever recorded. -/
theorem runAttempts_three_rl (net : Nat → HttpResult) (ps : ReqParams)
    (ra1 ra2 ra3 : Option String) (h1 : net 1 = .rateLimited ra1)
    (h2 : net 2 = .rateLimited ra2) (h3 : net 3 = .rateLimited ra3) :
    (runAttempts net ps 0 none).1 = .failed none := by
  rw [runAttempts_rl_step net ps 0 none ra1 (by omega) h1]
  rw [runAttempts_rl_step net ps 1 none ra2 (by omega) h2]
  rw [runAttempts_rl_step net ps 2 none ra3 (by omega) h3]
  rw [runAttempts_stop]

theorem processedRow_valid_success (cfg : Config) (net : Nat → HttpResult)
    (run : ToolRun) (htok : optStrTruthy cfg.BRIGHTDATA_TOKEN = true)
    (hq : run.status = "queued") (hin : inputTruthy run.input = true)
    (hds : optStrTruthy (run.input.getD RunInput.empty).dataset_id = true)
    (hlist : inputsNonEmptyList (((run.input.getD RunInput.empty).inputs).getD
      (.list [])) = true)
    (out : RunOutput)
    (hr : (runAttempts net (requestParams (run.input.getD RunInput.empty))
      0 none).1 = .success out) :
    processedRow cfg net run = { run with status := "success", output := some out } := by
  unfold processedRow
  simp only [htok, hq, hin, hds, hlist, hr, Bool.not_true, bne_self_eq_false,
    Bool.or_self, Bool.false_eq_true, if_false]

theorem processedRow_valid_failed (cfg : Config) (net : Nat → HttpResult)
    (run : ToolRun) (htok : optStrTruthy cfg.BRIGHTDATA_TOKEN = true)
    (hq : run.status = "queued") (hin : inputTruthy run.input = true)
    (hds : optStrTruthy (run.input.getD RunInput.empty).dataset_id = true)
    (hlist : inputsNonEmptyList (((run.input.getD RunInput.empty).inputs).getD
      (.list [])) = true)
    (le : Option String)
    (hr : (runAttempts net (requestParams (run.input.getD RunInput.empty))
      0 none).1 = .failed le) :
    processedRow cfg net run
      = { run with status := "error", error := some (le.getD "Unknown error") } := by
  unfold processedRow
  simp only [htok, hq, hin, hds, hlist, hr, Bool.not_true, bne_self_eq_false,
    Bool.or_self, Bool.false_eq_true, if_false]

/-- The worker's visible actions on a valid queued run are exactly the retry
loop's calls and sleeps. -/
theorem process_run_trace_valid (cfg : Config) (net : Nat → HttpResult)
    (db : DB) (rid : Nat) (run : ToolRun)
    (htok : optStrTruthy cfg.BRIGHTDATA_TOKEN = true)
    (hget : db.getRun rid = some run)
    (hq : run.status = "queued") (hin : inputTruthy run.input = true)
    (hds : optStrTruthy (run.input.getD RunInput.empty).dataset_id = true)
    (hlist : inputsNonEmptyList (((run.input.getD RunInput.empty).inputs).getD
      (.list [])) = true) :
    (process_run_brightdata cfg net db rid).2
      = (runAttempts net (requestParams (run.input.getD RunInput.empty))
          0 none).2 := by
  unfold process_run_brightdata
  simp only [htok, hget, hq, hin, hds, hlist, Bool.not_true, bne_self_eq_false,
    Bool.or_self, Bool.false_eq_true, if_false]
  cases hr : (runAttempts net (requestParams (run.input.getD RunInput.empty))
      0 none).1 <;> simp [hr]

/-- No token: the handler writes the error and performs no call and no
sleep. -/
theorem process_run_notoken (cfg : Config) (net : Nat → HttpResult) (db : DB)
    (rid : Nat) (htok : optStrTruthy cfg.BRIGHTDATA_TOKEN = false) :
    process_run_brightdata cfg net db rid
      = (db.updateRun rid (fun r =>
          { r with status := "error", error := some "Missing BRIGHTDATA_TOKEN" }),
         []) := by
  unfold process_run_brightdata
  simp only [htok, Bool.not_false, if_true]

/-- Null or empty input payload: the handler silently skips the run. -/
theorem process_run_skip (cfg : Config) (net : Nat → HttpResult) (db : DB)
    (rid : Nat) (run : ToolRun)
    (htok : optStrTruthy cfg.BRIGHTDATA_TOKEN = true)
    (hget : db.getRun rid = some run)
    (hskip : (run.status != "queued" || !(inputTruthy run.input)) = true) :
    process_run_brightdata cfg net db rid = (db, []) := by
  unfold process_run_brightdata
  simp only [htok, hget, hskip, Bool.not_true, Bool.false_eq_true, if_false,
    if_true]

/-- Invalid payload: the handler commits the validation error and performs
no call and no sleep. -/
theorem process_run_invalid_trace (cfg : Config) (net : Nat → HttpResult)
    (db : DB) (rid : Nat) (run : ToolRun)
    (htok : optStrTruthy cfg.BRIGHTDATA_TOKEN = true)
    (hget : db.getRun rid = some run)
    (hq : run.status = "queued") (hin : inputTruthy run.input = true)
    (hv : (!(optStrTruthy (run.input.getD RunInput.empty).dataset_id) ||
      !(inputsNonEmptyList (((run.input.getD RunInput.empty).inputs).getD
        (.list [])))) = true) :
    (process_run_brightdata cfg net db rid).2 = [] := by
  unfold process_run_brightdata
  simp only [htok, hget, hq, hin, hv, Bool.not_true, bne_self_eq_false,
    Bool.or_self, Bool.false_eq_true, if_false, if_true]

theorem processedRow_invalid (cfg : Config) (net : Nat → HttpResult)
    (run : ToolRun) (htok : optStrTruthy cfg.BRIGHTDATA_TOKEN = true)
    (hq : run.status = "queued") (hin : inputTruthy run.input = true)
    (hv : (!(optStrTruthy (run.input.getD RunInput.empty).dataset_id) ||
      !(inputsNonEmptyList (((run.input.getD RunInput.empty).inputs).getD
        (.list [])))) = true) :
    processedRow cfg net run
      = { run with
          status := "error",
          error := some "Invalid input: need dataset_id and non-empty inputs[]" } := by
  unfold processedRow
  simp only [htok, hq, hin, hv, Bool.not_true, bne_self_eq_false, Bool.or_self,
    Bool.false_eq_true, if_false, if_true]

/-- On the worker path the handler always commits the `running` mark before
any further write. -/
theorem process_run_marks_running (cfg : Config) (net : Nat → HttpResult)
    (db : DB) (rid : Nat) (run : ToolRun)
    (htok : optStrTruthy cfg.BRIGHTDATA_TOKEN = true)
    (hget : db.getRun rid = some run) (hq : run.status = "queued")
    (hin : inputTruthy run.input = true) :
    ∃ g : ToolRun → ToolRun,
      (process_run_brightdata cfg net db rid).1
        = (db.updateRun rid
            (fun r => { r with status := "running" })).updateRun rid g := by
  unfold process_run_brightdata
  simp only [htok, hget, hq, hin, Bool.not_true, bne_self_eq_false,
    Bool.or_self, Bool.false_eq_true, if_false]
  cases hv : (!(optStrTruthy (run.input.getD RunInput.empty).dataset_id) ||
      !(inputsNonEmptyList (((run.input.getD RunInput.empty).inputs).getD
        (.list [])))) with
  | true =>
    refine ⟨fun r => { r with status := "error", error := some "Invalid input: need dataset_id and non-empty inputs[]" }, ?_⟩
    simp only [hv, if_true]
  | false =>
    simp only [hv, Bool.false_eq_true, if_false]
    cases hr : (runAttempts net (requestParams (run.input.getD RunInput.empty))
        0 none).1 with
    | success out =>
      refine ⟨fun x => { x with output := some out, status := "success" }, ?_⟩
      simp only [hr]
    | failed last_err =>
      refine ⟨fun x => { x with status := "error", error := some (last_err.getD "Unknown error") }, ?_⟩
      simp only [hr]

/-! ## Lemmas about replace-mode target reconciliation -/

theorem bulk_sync_targets_shape (cfg : Config) (now : Nat) (sp : Option String)
    (p : BulkSyncPayload) (db : DB) (hsp : sp = some cfg.DISPATCHER_SECRET)
    (hnocol : syncCollision p db = false) (hmode : p.mode = "replace") :
    (bulk_sync cfg now sp p db).2.target_users
      = db.target_users.map (fun r =>
          if r.active == 1 && !(p.distinct_ids.dedup.contains r.distinct_id)
          then { r with active := 0, updated_at := now } else r)
        ++ (p.distinct_ids.dedup.filter (fun did =>
            !(db.target_users.any (fun r =>
              r.active == 1 && r.distinct_id == did)))).mapIdx
            (fun i did =>
              { id := db.next_target_id + i, distinct_id := did,
                window := p.window, active := 1, created_at := now,
                updated_at := now }) := by
  unfold bulk_sync
  rw [if_neg (by simp [hsp]), if_neg (by rw [hnocol]; decide)]
  simp only [hmode]
  rfl

theorem bulk_sync_target_untouched (cfg : Config) (now : Nat)
    (sp : Option String) (p : BulkSyncPayload) (db : DB)
    (hsp : sp = some cfg.DISPATCHER_SECRET)
    (hnocol : syncCollision p db = false) (hmode : p.mode = "replace") :
    ∀ r ∈ db.target_users, r.active = 1 → r.distinct_id ∈ p.distinct_ids →
      r ∈ (bulk_sync cfg now sp p db).2.target_users := by
  intro r hr hact hmem
  rw [bulk_sync_targets_shape cfg now sp p db hsp hnocol hmode]
  apply List.mem_append_left
  have hc : p.distinct_ids.dedup.contains r.distinct_id = true :=
    List.elem_eq_true_of_mem (List.mem_dedup.mpr hmem)
  have hcf : (r.active == 1 &&
      !(p.distinct_ids.dedup.contains r.distinct_id)) = false := by
    rw [hc, Bool.not_true, Bool.and_false]
  refine List.mem_map.mpr ⟨r, hr, ?_⟩
  rw [if_neg]
  rw [hcf]
  decide

theorem bulk_sync_target_deactivated (cfg : Config) (now : Nat)
    (sp : Option String) (p : BulkSyncPayload) (db : DB)
    (hsp : sp = some cfg.DISPATCHER_SECRET)
    (hnocol : syncCollision p db = false) (hmode : p.mode = "replace") :
    ∀ r ∈ db.target_users, r.active = 1 → r.distinct_id ∉ p.distinct_ids →
      { r with active := 0, updated_at := now }
        ∈ (bulk_sync cfg now sp p db).2.target_users := by
  intro r hr hact hnot
  rw [bulk_sync_targets_shape cfg now sp p db hsp hnocol hmode]
  apply List.mem_append_left
  have hc : p.distinct_ids.dedup.contains r.distinct_id = false := by
    cases hcc : p.distinct_ids.dedup.contains r.distinct_id with
    | false => rfl
    | true =>
      exact absurd (List.mem_dedup.mp (List.mem_of_elem_eq_true hcc)) hnot
  have hcond : (r.active == 1 &&
      !(p.distinct_ids.dedup.contains r.distinct_id)) = true := by
    rw [hact, hc]
    decide
  refine List.mem_map.mpr ⟨r, hr, ?_⟩
  rw [if_pos hcond]

theorem bulk_sync_active_iff (cfg : Config) (now : Nat) (sp : Option String)
    (p : BulkSyncPayload) (db : DB) (hsp : sp = some cfg.DISPATCHER_SECRET)
    (hnocol : syncCollision p db = false) (hmode : p.mode = "replace") :
    ∀ did : String,
      (∃ r ∈ (bulk_sync cfg now sp p db).2.target_users,
        r.active = 1 ∧ r.distinct_id = did) ↔ did ∈ p.distinct_ids := by
  intro did
  constructor
  · rintro ⟨r', hr', hact', hdid'⟩
    rw [bulk_sync_targets_shape cfg now sp p db hsp hnocol hmode] at hr'
    rcases List.mem_append.mp hr' with hin | hin
    · rcases List.mem_map.mp hin with ⟨r0, hr0, heq⟩
      by_cases hcond : (r0.active == 1 &&
          !(p.distinct_ids.dedup.contains r0.distinct_id)) = true
      · have hzero : r'.active = 0 := by
          rw [← heq, if_pos hcond]
        omega
      · have hrr : r' = r0 := by
          rw [← heq, if_neg hcond]
        subst hrr
        have hcf : (r'.active == 1 &&
            !(p.distinct_ids.dedup.contains r'.distinct_id)) = false :=
          Bool.eq_false_iff.mpr hcond
        have hA : (r'.active == 1) = true := by
          rw [hact']
          decide
        rw [hA, Bool.true_and] at hcf
        have hc : p.distinct_ids.dedup.contains r'.distinct_id = true := by
          cases hcc : p.distinct_ids.dedup.contains r'.distinct_id with
          | true => rfl
          | false =>
            rw [hcc] at hcf
            exact absurd hcf (by decide)
        rw [← hdid']
        exact List.mem_dedup.mp (List.mem_of_elem_eq_true hc)
    · rcases List.mem_iff_getElem.mp hin with ⟨i, hi, heq⟩
      have hlen : i < (p.distinct_ids.dedup.filter (fun did =>
          !(db.target_users.any (fun r =>
            r.active == 1 && r.distinct_id == did)))).length := by
        simpa using hi
      simp only [List.getElem_mapIdx] at heq
      rw [← hdid', ← heq]
      exact List.mem_dedup.mp
        (List.mem_filter.mp (List.getElem_mem hlen)).1
  · intro hdid
    by_cases hex : ∃ r ∈ db.target_users, r.active = 1 ∧ r.distinct_id = did
    · rcases hex with ⟨r0, hr0, hact0, hdid0⟩
      exact ⟨r0, bulk_sync_target_untouched cfg now sp p db hsp hnocol hmode r0 hr0
        hact0 (hdid0 ▸ hdid), hact0, hdid0⟩
    · have hany : db.target_users.any (fun r =>
          r.active == 1 && r.distinct_id == did) = false := by
        rw [List.any_eq_false]
        intro x hx hpx
        rcases Bool.and_eq_true_iff.mp hpx with ⟨h1, h2⟩
        exact hex ⟨x, hx, by simpa using h1, by simpa using h2⟩
      have hmemf : did ∈ p.distinct_ids.dedup.filter (fun did =>
          !(db.target_users.any (fun r =>
            r.active == 1 && r.distinct_id == did))) := by
        refine List.mem_filter.mpr ⟨List.mem_dedup.mpr hdid, ?_⟩
        rw [hany]
        decide
      rcases List.mem_iff_getElem.mp hmemf with ⟨i, hi, heq⟩
      refine ⟨{ id := db.next_target_id + i, distinct_id := did, window := p.window, active := 1, created_at := now, updated_at := now }, ?_, rfl, rfl⟩
      rw [bulk_sync_targets_shape cfg now sp p db hsp hnocol hmode]
      apply List.mem_append_right
      apply List.mem_iff_getElem.mpr
      refine ⟨i, by simpa using hi, ?_⟩
      rw [List.getElem_mapIdx, heq]

/-! ## Claim theorems -/

/-- C2: on an HTTP 429 the worker sleeps `Retry-After` seconds before the
next attempt when the header is present and parses as an integer, and
`2^attempt` seconds otherwise; concretely, a 429 carrying `Retry-After: 5`
makes the worker sleep 5 seconds (not the exponential default 2) before the
second attempt, after which the Job still completes. -/
theorem retry_after_honored :
    (∀ (net : Nat → HttpResult) (ps : ReqParams) (a : Nat)
        (last : Option String) (ra : Option String), a < 3 →
      net (a + 1) = HttpResult.rateLimited ra →
      (runAttempts net ps a last).2
        = Ev.callApi (a + 1) ps ::
            Ev.sleep (match ra with
              | some s => if pyIsDigit s then pyInt s else 2 ^ (a + 1)
              | none => 2 ^ (a + 1)) :: (runAttempts net ps (a + 1) last).2 ∧
      (runAttempts net ps a last).1 = (runAttempts net ps (a + 1) last).1) ∧
    (process_run_brightdata cfgA net429Five dbQ 1).2
      = [Ev.callApi 1 psA, Ev.sleep 5, Ev.callApi 2 psA] ∧
    (process_run_brightdata cfgA net429Five dbQ 1).1.statusOf 1
      = some "success" := by
  refine ⟨?_, by decide, by decide⟩
  intro net ps a last ra ha hnet
  have h := runAttempts_rl_step net ps a last ra ha hnet
  refine ⟨?_, by rw [h]⟩
  rw [h]
  cases ra <;> rfl

theorem retry_after_honored_witness :
    (runAttempts net429Five psA 0 none).2
      = Ev.callApi 1 psA :: Ev.sleep 5 ::
          (runAttempts net429Five psA 1 none).2 ∧
    (runAttempts net429Five psA 0 none).1
      = (runAttempts net429Five psA 1 none).1 := by
  have h := retry_after_honored.1 net429Five psA 0 none (some "5")
    (by decide) (by decide)
  exact ⟨by simpa using h.1, h.2⟩

/-- C3: a Job whose three attempts all fail with recordable errors (network
error, non-2xx status, or unexpected exception) ends in `error` carrying
the error text of the third (last) attempt. -/
theorem error_records_last_attempt (cfg : Config) (net : Nat → HttpResult)
    (db : DB) (rid : Nat) (run : ToolRun) (e1 e2 e3 : String)
    (htok : optStrTruthy cfg.BRIGHTDATA_TOKEN = true)
    (hget : db.getRun rid = some run)
    (hq : run.status = "queued") (hin : inputTruthy run.input = true)
    (hds : optStrTruthy (run.input.getD RunInput.empty).dataset_id = true)
    (hlist : inputsNonEmptyList (((run.input.getD RunInput.empty).inputs).getD
      (.list [])) = true)
    (h1 : errTextOf (net 1) = some e1) (h2 : errTextOf (net 2) = some e2)
    (h3 : errTextOf (net 3) = some e3) :
    (process_run_brightdata cfg net db rid).1.statusOf rid = some "error" ∧
    (process_run_brightdata cfg net db rid).1.errorOf rid = some e3 := by
  have hrow := process_run_spec cfg net db rid run hget
  have hloop := runAttempts_three_err net
    (requestParams (run.input.getD RunInput.empty)) e1 e2 e3 h1 h2 h3
  have hpr : (runAttempts net (requestParams (run.input.getD RunInput.empty))
      0 none).1 = .failed (some e3) := by rw [hloop]
  have hrow2 := processedRow_valid_failed cfg net run htok hq hin hds hlist
    (some e3) hpr
  unfold DB.statusOf DB.errorOf
  rw [hrow, hrow2]
  exact ⟨rfl, rfl⟩

theorem error_records_last_attempt_witness :
    (process_run_brightdata cfgA net3Fail dbQ 1).1.statusOf 1 = some "error" ∧
    (process_run_brightdata cfgA net3Fail dbQ 1).1.errorOf 1
      = some "Exception: e3" :=
  error_records_last_attempt cfgA net3Fail dbQ 1 runQ
    "RequestError: e1" "HTTP 500: boom" "Exception: e3"
    (by decide) (by decide) (by decide) (by decide) (by decide) (by decide)
    (by decide)
    (by
      show errTextOf (HttpResult.httpStatus 500 "boom") = some "HTTP 500: boom"
      simp only [errTextOf, String.take_eq]
      decide)
    (by decide)

/-- C10: when all three attempts are answered with HTTP 429, the Job still
ends in `error`, but — the rate-limit branch records no error text — with
the fallback text `"Unknown error"`. -/
theorem all_attempts_rate_limited_unknown_error (cfg : Config)
    (net : Nat → HttpResult) (db : DB) (rid : Nat) (run : ToolRun)
    (ra1 ra2 ra3 : Option String)
    (htok : optStrTruthy cfg.BRIGHTDATA_TOKEN = true)
    (hget : db.getRun rid = some run)
    (hq : run.status = "queued") (hin : inputTruthy run.input = true)
    (hds : optStrTruthy (run.input.getD RunInput.empty).dataset_id = true)
    (hlist : inputsNonEmptyList (((run.input.getD RunInput.empty).inputs).getD
      (.list [])) = true)
    (h1 : net 1 = .rateLimited ra1) (h2 : net 2 = .rateLimited ra2)
    (h3 : net 3 = .rateLimited ra3) :
    (process_run_brightdata cfg net db rid).1.statusOf rid = some "error" ∧
    (process_run_brightdata cfg net db rid).1.errorOf rid
      = some "Unknown error" := by
  have hrow := process_run_spec cfg net db rid run hget
  have hpr := runAttempts_three_rl net
    (requestParams (run.input.getD RunInput.empty)) ra1 ra2 ra3 h1 h2 h3
  have hrow2 := processedRow_valid_failed cfg net run htok hq hin hds hlist
    none hpr
  unfold DB.statusOf DB.errorOf
  rw [hrow, hrow2]
  exact ⟨rfl, rfl⟩

theorem all_attempts_rate_limited_unknown_error_witness :
    (process_run_brightdata cfgA net3RL dbQ 1).1.statusOf 1 = some "error" ∧
    (process_run_brightdata cfgA net3RL dbQ 1).1.errorOf 1
      = some "Unknown error" :=
  all_attempts_rate_limited_unknown_error cfgA net3RL dbQ 1 runQ
    none none none (by decide) (by decide) (by decide) (by decide) (by decide)
    (by decide) (by decide) (by decide) (by decide)

/-- C1 counterexample: a Job is not always created `queued` — with the
search dataset unconfigured, an authorized sync creates its Job directly in
the terminal status `error`. -/
theorem job_created_in_error_status_when_dataset_missing :
    (bulk_sync cfgNoDs 10 (some "s3") payA DB.empty).2.statusOf 1
      = some "error" ∧
    (bulk_sync cfgNoDs 10 (some "s3") payA DB.empty).2.statusOf 1
      ≠ some "queued" := by decide

/-- C1 (amended): a Job created by an authorized sync starts `queued`
whenever the search dataset is configured and no incoming id collides with
an existing (inactive) target row on the unique `distinct_id` index
(otherwise the Job is created directly in terminal `error`, respectively
the request aborts with 500 and no Job row is created at all); a worker
tick moves each run's row only forward —
it leaves the row unchanged or completes a `queued` run to `success` or
`error`; a run already terminal is never picked up again (the poll filters
on `status = "queued"`), so a tick leaves it untouched; and on the worker
path a `queued` run with a non-empty payload always gets the transient
`running` mark committed before the final write. -/
theorem job_lifecycle_forward_amended :
    (∀ (cfg : Config) (now : Nat) (sp : Option String) (p : BulkSyncPayload)
        (db : DB), sp = some cfg.DISPATCHER_SECRET →
      syncCollision p db = false →
      optStrTruthy cfg.BRIGHTDATA_DATASET_SEARCH = true →
      ∃ run : ToolRun, (bulk_sync cfg now sp p db).2.tool_runs
          = db.tool_runs ++ [run] ∧ run.status = "queued") ∧
    (∀ (cfg : Config) (now : Nat) (sp : Option String) (p : BulkSyncPayload)
        (db : DB), sp = some cfg.DISPATCHER_SECRET →
      syncCollision p db = true →
      bulk_sync cfg now sp p db = (.error 500, db)) ∧
    (∀ (cfg : Config) (nets : Nat → Nat → HttpResult) (db : DB) (rid : Nat)
        (run run' : ToolRun), (db.tool_runs.map (fun r => r.id)).Nodup →
      db.getRun rid = some run →
      (worker_tick cfg nets db).1.getRun rid = some run' →
      run' = run ∨ (run.status = "queued" ∧
        (run'.status = "success" ∨ run'.status = "error"))) ∧
    (∀ (cfg : Config) (nets : Nat → Nat → HttpResult) (db : DB) (rid : Nat)
        (run : ToolRun), (db.tool_runs.map (fun r => r.id)).Nodup →
      db.getRun rid = some run →
      (run.status = "success" ∨ run.status = "error") →
      (worker_tick cfg nets db).1.getRun rid = some run) ∧
    (∀ (cfg : Config) (net : Nat → HttpResult) (db : DB) (rid : Nat)
        (run : ToolRun), optStrTruthy cfg.BRIGHTDATA_TOKEN = true →
      db.getRun rid = some run → run.status = "queued" →
      inputTruthy run.input = true →
      ∃ g : ToolRun → ToolRun,
        (process_run_brightdata cfg net db rid).1
          = (db.updateRun rid
              (fun r => { r with status := "running" })).updateRun rid g) := by
  refine ⟨?_, ?_, ?_, ?_, process_run_marks_running⟩
  · intro cfg now sp p db hsp hnocol hds
    rcases bulk_sync_new_run cfg now sp p db hsp hnocol with
      ⟨run, h1, _, _, _, hq, _⟩
    exact ⟨run, h1, (hq hds).1⟩
  · intro cfg now sp p db hsp hcol
    exact bulk_sync_collision_fail cfg now sp p db hsp hcol
  · intro cfg nets db rid run run' hnd hget hget'
    have hw := worker_tick_getRun cfg nets db hnd rid run hget
    rw [hget'] at hw
    by_cases hin : rid ∈ pollIds cfg db
    · rw [if_pos hin] at hw
      have hq := pollIds_status cfg db rid run hnd hget hin
      have he : run' = processedRow cfg (nets rid) run := Option.some.inj hw
      rcases processedRow_status_cases cfg (nets rid) run with hc | hc | hc
      · left; rw [he, hc]
      · right; exact ⟨hq, Or.inl (by rw [he]; exact hc)⟩
      · right; exact ⟨hq, Or.inr (by rw [he]; exact hc)⟩
    · rw [if_neg hin] at hw
      left
      exact Option.some.inj hw
  · intro cfg nets db rid run hnd hget hterm
    have hw := worker_tick_getRun cfg nets db hnd rid run hget
    have hnotin : rid ∉ pollIds cfg db := by
      intro hin
      have hq := pollIds_status cfg db rid run hnd hget hin
      rcases hterm with h | h <;> rw [h] at hq <;> exact absurd hq (by decide)
    rw [if_neg hnotin] at hw
    exact hw

theorem job_lifecycle_forward_amended_witness :
    (∃ run : ToolRun, (bulk_sync cfgA 10 (some "s3") payA DB.empty).2.tool_runs
        = DB.empty.tool_runs ++ [run] ∧ run.status = "queued") ∧
    bulk_sync cfgA 30 (some "s3") payA3 dbA2 = (.error 500, dbA2) ∧
    (worker_tick cfgA netsOk dbDone).1.getRun 1 = some runDone :=
  ⟨job_lifecycle_forward_amended.1 cfgA 10 (some "s3") payA DB.empty rfl
     (by decide) (by decide),
   job_lifecycle_forward_amended.2.1 cfgA 30 (some "s3") payA3 dbA2 rfl
     (by decide),
   job_lifecycle_forward_amended.2.2.2.1 cfgA netsOk dbDone 1 runDone
     (by decide) (by decide) (Or.inl (by decide))⟩

/-- C4: in every reachable database state, `output` and `error` of every
Job are mutually exclusive and both empty while the Job is `queued` or
`running`: `success` implies empty `error`, `error` implies empty
`output`. -/
theorem output_error_mutually_exclusive :
    ∀ db : DB, Reachable db → ∀ r ∈ db.tool_runs, statusExcl r :=
  fun _ h => (reachable_StoreInv h).2.2

theorem output_error_mutually_exclusive_witness :
    statusExcl { id := 1, trigger_id := some 1, tool := "brightdata:trigger", status := "error", input := some { RunInput.empty with reason := some "missing dataset" }, output := none, error := some "Missing BRIGHTDATA_DATASET_SEARCH", created_at := 10 } :=
  output_error_mutually_exclusive _
    (Reachable.sync cfgNoDs 10 (some "s3") payA Reachable.init) _ (by decide)

/-- C5 counterexample: a queued Job with a `NULL` input payload lacks a
dataset identifier, yet the worker does not transition it to `error`: it
stays `queued` with no error recorded (and no network call). -/
theorem empty_payload_job_stays_queued :
    (process_run_brightdata cfgA netOk dbNull 1).1.statusOf 1
      = some "queued" ∧
    (process_run_brightdata cfgA netOk dbNull 1).1.errorOf 1 = none ∧
    (process_run_brightdata cfgA netOk dbNull 1).2 = [] := by decide

/-- C5 (amended): for a queued Job whose payload is non-empty but lacks a
truthy `dataset_id` or a non-empty `inputs` list, the worker transitions
the Job to `error` with the descriptive message and makes no network call
and no sleep; a queued Job whose payload is `NULL` or the empty object is
instead skipped silently — it stays `queued`, also with no network call. -/
theorem invalid_input_amended :
    (∀ (cfg : Config) (net : Nat → HttpResult) (db : DB) (rid : Nat)
        (run : ToolRun), optStrTruthy cfg.BRIGHTDATA_TOKEN = true →
      db.getRun rid = some run → run.status = "queued" →
      inputTruthy run.input = true →
      (!(optStrTruthy (run.input.getD RunInput.empty).dataset_id) ||
        !(inputsNonEmptyList (((run.input.getD RunInput.empty).inputs).getD
          (.list [])))) = true →
      (process_run_brightdata cfg net db rid).1.statusOf rid = some "error" ∧
      (process_run_brightdata cfg net db rid).1.errorOf rid
        = some "Invalid input: need dataset_id and non-empty inputs[]" ∧
      (process_run_brightdata cfg net db rid).2 = []) ∧
    (∀ (cfg : Config) (net : Nat → HttpResult) (db : DB) (rid : Nat)
        (run : ToolRun), optStrTruthy cfg.BRIGHTDATA_TOKEN = true →
      db.getRun rid = some run → run.status = "queued" →
      inputTruthy run.input = false →
      process_run_brightdata cfg net db rid = (db, [])) := by
  constructor
  · intro cfg net db rid run htok hget hq hin hv
    have hrow := process_run_spec cfg net db rid run hget
    have hrow2 := processedRow_invalid cfg net run htok hq hin hv
    refine ⟨?_, ?_, process_run_invalid_trace cfg net db rid run htok hget hq hin hv⟩
    · unfold DB.statusOf
      rw [hrow, hrow2]
      rfl
    · unfold DB.errorOf
      rw [hrow, hrow2]
      rfl
  · intro cfg net db rid run htok hget hq hinF
    apply process_run_skip cfg net db rid run htok hget
    simp [hq, hinF]

theorem invalid_input_amended_witness :
    ((process_run_brightdata cfgA netOk dbNoDs 1).1.statusOf 1 = some "error" ∧
     (process_run_brightdata cfgA netOk dbNoDs 1).1.errorOf 1
       = some "Invalid input: need dataset_id and non-empty inputs[]" ∧
     (process_run_brightdata cfgA netOk dbNoDs 1).2 = []) ∧
    process_run_brightdata cfgA netOk dbNull 1 = (dbNull, []) :=
  ⟨invalid_input_amended.1 cfgA netOk dbNoDs 1 runNoDs (by decide) (by decide)
     (by decide) (by decide) (by decide),
   invalid_input_amended.2 cfgA netOk dbNull 1 runNull (by decide) (by decide)
     (by decide) (by decide)⟩

/-- C6: a sync request whose shared secret does not match the configured
value gets the unauthorized (401) outcome and causes no side effect at
all — the database, including the Target and Job tables, is returned
unchanged. -/
theorem wrong_secret_no_side_effects (cfg : Config) (now : Nat)
    (sp : Option String) (p : BulkSyncPayload) (db : DB)
    (hsp : sp ≠ some cfg.DISPATCHER_SECRET) :
    bulk_sync cfg now sp p db = (.error 401, db) :=
  bulk_sync_auth_fail cfg now sp p db hsp

theorem wrong_secret_no_side_effects_witness :
    bulk_sync cfgA 10 (some "wrong") payA DB.empty = (.error 401, DB.empty) :=
  wrong_secret_no_side_effects cfgA 10 (some "wrong") payA DB.empty (by decide)

/-- C9 counterexample: the missing provider token is checked per Job inside
the worker loop, not only at configuration load: with the token unset the
handler rewrites a queued Job to `error "Missing BRIGHTDATA_TOKEN"` (making
no network call), while the identical database and oracle with the token
set drive the Job to `success`. -/
theorem token_checked_mid_loop :
    (process_run_brightdata cfgNoTok netOk dbQ 1).1.errorOf 1
      = some "Missing BRIGHTDATA_TOKEN" ∧
    (process_run_brightdata cfgNoTok netOk dbQ 1).2 = [] ∧
    (process_run_brightdata cfgA netOk dbQ 1).1.statusOf 1
      = some "success" := by decide

/-- C9 (amended): the polling dispatcher reads the provider token at
configuration load without validating it; the missing credential is
instead detected mid-loop, per Job: the handler marks the Job
`error "Missing BRIGHTDATA_TOKEN"` without any network call or sleep, and
the failure is confined to the Job row — the handler returns normally, so
nothing terminates the host process. -/
theorem missing_token_amended (cfg : Config) (net : Nat → HttpResult)
    (db : DB) (rid : Nat) (run : ToolRun)
    (htok : optStrTruthy cfg.BRIGHTDATA_TOKEN = false)
    (hget : db.getRun rid = some run) :
    (process_run_brightdata cfg net db rid).1.statusOf rid = some "error" ∧
    (process_run_brightdata cfg net db rid).1.errorOf rid
      = some "Missing BRIGHTDATA_TOKEN" ∧
    (process_run_brightdata cfg net db rid).2 = [] := by
  have h := process_run_notoken cfg net db rid htok
  have hupd := DB.getRun_updateRun_self db rid
    (fun r => { r with status := "error", error := some "Missing BRIGHTDATA_TOKEN" })
    (fun r => rfl)
  refine ⟨?_, ?_, ?_⟩
  · unfold DB.statusOf
    rw [h, hupd, hget]
    rfl
  · unfold DB.errorOf
    rw [h, hupd, hget]
    rfl
  · rw [h]

theorem missing_token_amended_witness :
    (process_run_brightdata cfgNoTok netOk dbNoDs 1).1.statusOf 1
      = some "error" ∧
    (process_run_brightdata cfgNoTok netOk dbNoDs 1).1.errorOf 1
      = some "Missing BRIGHTDATA_TOKEN" ∧
    (process_run_brightdata cfgNoTok netOk dbNoDs 1).2 = [] :=
  missing_token_amended cfgNoTok netOk dbNoDs 1 runNoDs (by decide) (by decide)

/-- C8: keyword sentiment is a pure function of its input text (it is a
function of `t` alone) and applies a symmetric margin threshold over the
fixed `POS`/`NEG` word sets. In the `dispatcher_api.py` variant (membership
counts, strict comparison) the margin is 1: positive iff
`pos − neg ≥ 1`, negative iff `neg − pos ≥ 1`, else neutral (the
empty-text early return also lands in this characterization, both counts
being 0). In the MCP variant (occurrence counts) the margin is 2. -/
theorem simple_sentiment_margin (t : String) :
    (simple_sentiment t = "positive" ↔
      (((POS.filter (fun w => pyInStr w t.toLower)).length : Int)
        - ((NEG.filter (fun w => pyInStr w t.toLower)).length : Int) ≥ 1)) ∧
    (simple_sentiment t = "negative" ↔
      (((NEG.filter (fun w => pyInStr w t.toLower)).length : Int)
        - ((POS.filter (fun w => pyInStr w t.toLower)).length : Int) ≥ 1)) ∧
    (simple_sentiment t = "neutral" ↔
      (¬(((POS.filter (fun w => pyInStr w t.toLower)).length : Int)
          - ((NEG.filter (fun w => pyInStr w t.toLower)).length : Int) ≥ 1) ∧
       ¬(((NEG.filter (fun w => pyInStr w t.toLower)).length : Int)
          - ((POS.filter (fun w => pyInStr w t.toLower)).length : Int) ≥ 1))) ∧
    (simple_sentiment_mcp t = "positive" ↔
      (((POS.map (fun w => pyCount w t.toLower)).sum : Int)
        - ((NEG.map (fun w => pyCount w t.toLower)).sum : Int) ≥ 2)) ∧
    (simple_sentiment_mcp t = "negative" ↔
      (((NEG.map (fun w => pyCount w t.toLower)).sum : Int)
        - ((POS.map (fun w => pyCount w t.toLower)).sum : Int) ≥ 2)) ∧
    (simple_sentiment_mcp t = "neutral" ↔
      (¬(((POS.map (fun w => pyCount w t.toLower)).sum : Int)
          - ((NEG.map (fun w => pyCount w t.toLower)).sum : Int) ≥ 2) ∧
       ¬(((NEG.map (fun w => pyCount w t.toLower)).sum : Int)
          - ((POS.map (fun w => pyCount w t.toLower)).sum : Int) ≥ 2))) := by
  have key : ∀ p n : Nat,
      (((if p > n then "positive" else if n > p then "negative"
          else "neutral") = "positive") ↔ ((p : Int) - n ≥ 1)) ∧
      (((if p > n then "positive" else if n > p then "negative"
          else "neutral") = "negative") ↔ ((n : Int) - p ≥ 1)) ∧
      (((if p > n then "positive" else if n > p then "negative"
          else "neutral") = "neutral") ↔
        (¬((p : Int) - n ≥ 1) ∧ ¬((n : Int) - p ≥ 1))) := by
    intro p n
    by_cases h1 : p > n
    · rw [if_pos h1]
      exact ⟨iff_of_true rfl (by omega), iff_of_false (by decide) (by omega),
        iff_of_false (by decide) (fun hc => hc.1 (by omega))⟩
    · by_cases h2 : n > p
      · rw [if_neg h1, if_pos h2]
        exact ⟨iff_of_false (by decide) (by omega), iff_of_true rfl (by omega),
          iff_of_false (by decide) (fun hc => hc.2 (by omega))⟩
      · rw [if_neg h1, if_neg h2]
        exact ⟨iff_of_false (by decide) (by omega),
          iff_of_false (by decide) (by omega),
          iff_of_true rfl ⟨by omega, by omega⟩⟩
  have key2 : ∀ p n : Nat,
      (((if (p : Int) - n ≥ 2 then "positive"
          else if (n : Int) - p ≥ 2 then "negative"
          else "neutral") = "positive") ↔ ((p : Int) - n ≥ 2)) ∧
      (((if (p : Int) - n ≥ 2 then "positive"
          else if (n : Int) - p ≥ 2 then "negative"
          else "neutral") = "negative") ↔ ((n : Int) - p ≥ 2)) ∧
      (((if (p : Int) - n ≥ 2 then "positive"
          else if (n : Int) - p ≥ 2 then "negative"
          else "neutral") = "neutral") ↔
        (¬((p : Int) - n ≥ 2) ∧ ¬((n : Int) - p ≥ 2))) := by
    intro p n
    by_cases h1 : (p : Int) - n ≥ 2
    · rw [if_pos h1]
      exact ⟨iff_of_true rfl h1, iff_of_false (by decide) (by omega),
        iff_of_false (by decide) (fun hc => hc.1 h1)⟩
    · by_cases h2 : (n : Int) - p ≥ 2
      · rw [if_neg h1, if_pos h2]
        exact ⟨iff_of_false (by decide) h1, iff_of_true rfl h2,
          iff_of_false (by decide) (fun hc => hc.2 h2)⟩
      · rw [if_neg h1, if_neg h2]
        exact ⟨iff_of_false (by decide) h1, iff_of_false (by decide) h2,
          iff_of_true rfl ⟨h1, h2⟩⟩
  have hk2 := key2 ((POS.map (fun w => pyCount w t.toLower)).sum)
    ((NEG.map (fun w => pyCount w t.toLower)).sum)
  by_cases he : t.isEmpty = true
  · have ht : t = "" := (String.isEmpty_iff t).mp he
    subst ht
    have htl : String.toLower "" = "" := by
      show String.map Char.toLower "" = ""
      rw [String.map_eq]
      rfl
    refine ⟨by rw [htl]; decide, by rw [htl]; decide, by rw [htl]; decide,
      ?_, ?_, ?_⟩
    · unfold simple_sentiment_mcp
      exact hk2.1
    · unfold simple_sentiment_mcp
      exact hk2.2.1
    · unfold simple_sentiment_mcp
      exact hk2.2.2
  · have hk := key ((POS.filter (fun w => pyInStr w t.toLower)).length)
      ((NEG.filter (fun w => pyInStr w t.toLower)).length)
    unfold simple_sentiment simple_sentiment_mcp
    rw [if_neg he]
    exact ⟨hk.1, hk.2.1, hk.2.2, hk2.1, hk2.2.1, hk2.2.2⟩

/-- C7 counterexample: the replace semantics are not total — syncing
`{"a"}`, then `{}` (which deactivates `a`), then `{"a"}` again makes the
insert of `a` collide with the surviving inactive row on the unique
`distinct_id` index, so the request fails with 500 and commits nothing:
`a` is in the incoming set yet has no active row afterwards, and no Job
is created. -/
theorem resync_deactivated_id_fails :
    (bulk_sync cfgA 30 (some "s3") payA3 dbA2).1 = .error 500 ∧
    (bulk_sync cfgA 30 (some "s3") payA3 dbA2).2 = dbA2 ∧
    "a" ∈ payA3.distinct_ids ∧
    (∀ r ∈ dbA2.target_users, ¬(r.active = 1 ∧ r.distinct_id = "a")) ∧
    (∀ r ∈ (bulk_sync cfgA 30 (some "s3") payA3 dbA2).2.target_users,
      ¬(r.active = 1 ∧ r.distinct_id = "a")) ∧
    (bulk_sync cfgA 30 (some "s3") payA3 dbA2).2.tool_runs
      = dbA2.tool_runs :=
  ⟨rfl, by decide, by decide, by decide, by decide, by decide⟩

/-- C7 (amended): an authenticated replace-mode sync whose incoming set
collides with no existing (inactive) target row on the unique
`distinct_id` index deactivates (refreshing `updated_at`) exactly the
active targets outside the incoming set, leaves active targets inside the
incoming set untouched, inserts one new active row (with the sync's
window) for each incoming id with no active row, and afterwards the
active ids are exactly the incoming set; on such a collision the request
instead fails with 500 and changes nothing; in the per-addition variant,
syncing `{"a","b"}` then `{"b","c"}` leaves `a` inactive (refreshed), `b`
active and untouched, `c` active and new, with exactly one Job for each
of `a`, `b` and `c` — the one created at its insertion. -/
theorem replace_sync_semantics :
    (∀ (cfg : Config) (now : Nat) (sp : Option String) (p : BulkSyncPayload)
        (db : DB), sp = some cfg.DISPATCHER_SECRET →
      syncCollision p db = false → p.mode = "replace" →
      ((bulk_sync cfg now sp p db).2.target_users
        = db.target_users.map (fun r =>
            if r.active == 1 && !(p.distinct_ids.dedup.contains r.distinct_id)
            then { r with active := 0, updated_at := now } else r)
          ++ (p.distinct_ids.dedup.filter (fun did =>
              !(db.target_users.any (fun r =>
                r.active == 1 && r.distinct_id == did)))).mapIdx
              (fun i did =>
                { id := db.next_target_id + i, distinct_id := did,
                  window := p.window, active := 1, created_at := now,
                  updated_at := now })) ∧
      (∀ r ∈ db.target_users, r.active = 1 → r.distinct_id ∈ p.distinct_ids →
        r ∈ (bulk_sync cfg now sp p db).2.target_users) ∧
      (∀ r ∈ db.target_users, r.active = 1 → r.distinct_id ∉ p.distinct_ids →
        { r with active := 0, updated_at := now }
          ∈ (bulk_sync cfg now sp p db).2.target_users) ∧
      (∀ did : String, (∃ r ∈ (bulk_sync cfg now sp p db).2.target_users,
          r.active = 1 ∧ r.distinct_id = did) ↔ did ∈ p.distinct_ids)) ∧
    (∀ (cfg : Config) (now : Nat) (sp : Option String) (p : BulkSyncPayload)
        (db : DB), sp = some cfg.DISPATCHER_SECRET →
      syncCollision p db = true →
      bulk_sync cfg now sp p db = (.error 500, db)) ∧
    (v1db2.target_users
      = [{ id := 1, distinct_id := "a", window := "W1", active := 0, created_at := 100, updated_at := 200 },
         { id := 2, distinct_id := "b", window := "W1", active := 1, created_at := 100, updated_at := 100 },
         { id := 3, distinct_id := "c", window := "W2", active := 1, created_at := 200, updated_at := 200 }] ∧
     V1.jobsFor v1db2 "a" = 1 ∧ V1.jobsFor v1db2 "b" = 1 ∧
     V1.jobsFor v1db2 "c" = 1) := by
  refine ⟨?_, ?_, by decide, by decide, by decide, by decide⟩
  · intro cfg now sp p db hsp hnocol hmode
    exact ⟨bulk_sync_targets_shape cfg now sp p db hsp hnocol hmode,
      bulk_sync_target_untouched cfg now sp p db hsp hnocol hmode,
      bulk_sync_target_deactivated cfg now sp p db hsp hnocol hmode,
      bulk_sync_active_iff cfg now sp p db hsp hnocol hmode⟩
  · intro cfg now sp p db hsp hcol
    exact bulk_sync_collision_fail cfg now sp p db hsp hcol

theorem replace_sync_semantics_witness :
    ((∃ r ∈ (bulk_sync cfgA 10 (some "s3") payAB DB.empty).2.target_users,
      r.active = 1 ∧ r.distinct_id = "a") ↔ "a" ∈ payAB.distinct_ids) ∧
    bulk_sync cfgA 30 (some "s3") payA3 dbA2 = (.error 500, dbA2) :=
  ⟨(replace_sync_semantics.1 cfgA 10 (some "s3") payAB DB.empty rfl
    (by decide) rfl).2.2.2 "a",
   replace_sync_semantics.2.1 cfgA 30 (some "s3") payA3 dbA2 rfl (by decide)⟩

end GrowthLabs
